import Mathlib

/-!
# Verification of the repstack ingestion / metrics core

Shallow embedding of the canonicalization pipeline and metrics engine of the
repstack repository (`src/repstack/ingest.py`, `src/repstack/normalize.py`,
`src/repstack/metrics.py`, `src/repstack/models.py`), together with theorems
settling the specification claims about it.

Modelling conventions:
* Python floats are modelled by `ℚ` (exact rationals); `round(x, 2)` is
  modelled by `round2` (round half to even at two decimals, Python's rounding
  mode for ties).  Non-finite float literals (`nan`, `inf`) are outside the
  model.
* Python strings are Lean `String`s; `str.strip` is `String.trim`,
  `str.lower` is `String.toLower` (inputs of interest are ASCII).
* Fallible Python code (functions that can raise `ValueError` /
  `ZeroDivisionError` / pydantic `ValidationError`) is modelled with
  `Option` / `Except String`.
* Python dicts that arrive as loosely-typed parser output are modelled as
  structures with one field per logical key; a field of type
  `Option (Option α)` distinguishes an absent key (`none`) from a key that is
  present with value `None` (`some none`).  Python's alternate-key fallbacks
  (`reps`/`Reps`, `load_type`/`load type`, ...) coalesce onto the one field.
* `uuid.uuid4()` draws are modelled by explicitly passed fresh-id arguments
  (a `ℕ → String` supply for the per-session draws); this makes the only
  nondeterminism of the pipeline an explicit input.
* The on-disk exercise registry and per-app alias packs are external
  read-only data (out of scope per the spec); they are passed as parameters:
  an alias pack is a lookup function `String → Option String` over
  lower-cased trimmed keys (the shape `_load_source_pack` produces), the
  registry is a list of entries in file order (the shape `_load_registry`
  reads).
* The CSV reader is modelled for content without quoted cells (cells are
  split on commas), which covers every use in this development; RFC‑4180
  quoting inside `csv.DictReader` is not modelled.
-/

namespace Repstack

/-! ## String helpers (Python string methods over `List Char`)

These mirror `str.strip` / `str.lower` / `str.splitlines` / `in` /
`str.startswith` for the ASCII inputs this code handles; they are written
over `List Char` so that concrete runs reduce inside proofs. -/

/-- Leading whitespace removed. -/
def dropLeadingWs (cs : List Char) : List Char := cs.dropWhile Char.isWhitespace

/-- Python `str.strip()`. -/
def pyStrip (s : String) : String :=
  String.mk ((dropLeadingWs s.toList.reverse).reverse |> dropLeadingWs)

/-- Python `str.lower()` (ASCII case folding). -/
def pyLower (s : String) : String := String.mk (s.toList.map Char.toLower)

/-- Split a character list on a separator character. -/
def splitOnChar (sep : Char) (cs : List Char) : List (List Char) :=
  cs.foldr
    (fun c acc =>
      match acc with
      | [] => if c = sep then [[], []] else [[c]]
      | g :: gs => if c = sep then [] :: g :: gs else (c :: g) :: gs)
    [[]]

/-- Python `str.splitlines()` restricted to `\n` separators (a final
newline produces no trailing empty line, and `"" → []`). -/
def splitLines (s : String) : List String :=
  match s.toList with
  | [] => []
  | cs =>
    let groups := splitOnChar '\n' cs
    let groups := if groups.getLast? = some [] then groups.dropLast else groups
    groups.map String.mk

/-- Python `needle in haystack` for strings (empty needle always matches). -/
def strContains (haystack needle : String) : Bool :=
  let n := needle.toList
  let h := haystack.toList
  (List.range (h.length + 1)).any (fun i => n.isPrefixOf (h.drop i))

/-- Python `str.startswith(prefix)` for a single-character test. -/
def startsWithChar (s : String) (c : Char) : Bool :=
  match s.toList with
  | [] => false
  | d :: _ => d = c

/-- Python `s[:n]`. -/
def pyTake (s : String) (n : ℕ) : String := String.mk (s.toList.take n)

/-- Python truthiness of an optional string (`None` and `""` are falsy). -/
def pyTruthy : Option String → Bool
  | none => false
  | some s => s ≠ ""

/-- Python `a or b` on optional strings (falsy `a`, i.e. `None` or `""`,
selects `b`). -/
def pyOr (a b : Option String) : Option String :=
  if pyTruthy a then a else b

/-- Render a natural number (for building message / location strings). -/
def natStr (n : ℕ) : String := toString n

/-! ## Numeric utilities: Python `round(x, 2)`, `int(x)` truncation, `float(s)` -/

/-- Round half to even to the nearest integer (Python `round` for ties). -/
def roundHalfEven (q : ℚ) : ℤ :=
  let n : ℤ := ⌊q⌋
  let frac : ℚ := q - (n : ℚ)
  if frac < 1/2 then n
  else if frac > 1/2 then n + 1
  else if n % 2 = 0 then n else n + 1

/-- Python `round(x, 2)`: round to two decimals, ties to even. -/
def round2 (q : ℚ) : ℚ := (roundHalfEven (q * 100) : ℚ) / 100

/-- Python `int(x)` on a float: truncation toward zero. -/
def truncToInt (q : ℚ) : ℤ := if q < 0 then ⌈q⌉ else ⌊q⌋

/-- One character of a Python decimal digit. -/
def isDigitChar (c : Char) : Bool := c.isDigit

/-- Digits with PEP‑515 underscores (an underscore must sit between digits):
returns the digit run (underscores removed) and the rest of the input. -/
def takeDigitsU : List Char → (List Char × List Char)
  | [] => ([], [])
  | c :: rest =>
    if isDigitChar c then
      let (ds, rest') := takeDigitsU rest
      (c :: ds, rest')
    else if c = '_' then
      match rest with
      | d :: _ =>
        if isDigitChar d then
          let (ds, rest') := takeDigitsU rest
          (ds, rest')
        else ([], c :: rest)
      | [] => ([], [c])
    else ([], c :: rest)

/-- Numeric value of a digit list (most significant first). -/
def digitsVal (ds : List Char) : ℕ :=
  ds.foldl (fun acc c => acc * 10 + (c.toNat - '0'.toNat)) 0

/-- Parse an optional sign; returns (sign, rest). -/
def parseSign : List Char → (ℤ × List Char)
  | '+' :: rest => (1, rest)
  | '-' :: rest => (-1, rest)
  | cs => (1, cs)

/-- Mantissa `digits[.digits?] | .digits` as (value, scale, rest); `none` when
no digit is present at all. -/
def parseMantissa (cs : List Char) : Option (ℕ × ℕ × List Char) :=
  let (ipart, rest) := takeDigitsU cs
  match rest with
  | '.' :: rest' =>
    let (fpart, rest'') := takeDigitsU rest'
    if ipart.isEmpty ∧ fpart.isEmpty then none
    else some (digitsVal ipart * 10 ^ fpart.length + digitsVal fpart, fpart.length, rest'')
  | _ =>
    if ipart.isEmpty then none
    else some (digitsVal ipart, 0, rest)

/-- Optional exponent `[eE][+-]?digits`; returns (exponent, rest). -/
def parseExponent (cs : List Char) : Option (ℤ × List Char) :=
  match cs with
  | c :: rest =>
    if c = 'e' ∨ c = 'E' then
      let (esign, rest') := parseSign rest
      let (eds, rest'') := takeDigitsU rest'
      if eds.isEmpty then none
      else some (esign * (digitsVal eds : ℤ), rest'')
    else some (0, cs)
  | [] => some (0, [])

/-- Python `float(s)` on finite decimal literals: optional surrounding
whitespace, optional sign, mantissa, optional exponent.  `nan`/`inf`
literals are outside the model (treated as unparseable). -/
def pythonFloat (s : String) : Option ℚ :=
  let cs := (pyStrip s).toList
  let (sign, cs₁) := parseSign cs
  match parseMantissa cs₁ with
  | none => none
  | some (m, scale, cs₂) =>
    match parseExponent cs₂ with
    | none => none
    | some (e, cs₃) =>
      if cs₃.isEmpty then
        let base : ℚ := (sign * (m : ℤ) : ℚ) / (10 ^ scale : ℕ)
        some (base * (10 : ℚ) ^ e)
      else none

/-- Python `int(s)` via `int(float(s))` (the only int-parsing path the CSV
parser uses): float cast then truncation toward zero. -/
def pythonIntViaFloat (s : String) : Option ℤ :=
  (pythonFloat s).map truncToInt

/-! ## `metrics.py`: e1rm formulas -/

/-- `e1rm_epley` (metrics.py): `0` for `reps ≤ 0`, exactly `weight` for
`reps == 1`, else `weight * (1 + reps/30)`. -/
def e1rm_epley (weight : ℚ) (reps : ℤ) : ℚ :=
  if reps ≤ 0 then 0
  else if reps = 1 then weight
  else weight * (1 + (reps : ℚ) / 30)

/-- `e1rm_brzycki` (metrics.py): `0` for `reps ≤ 0`, exactly `weight` for
`reps == 1`, else `weight * 36 / (37 - reps)`; at `reps = 37` the Python
division `36.0 / 0.0` raises `ZeroDivisionError`, modelled as `none`. -/
def e1rm_brzycki (weight : ℚ) (reps : ℤ) : Option ℚ :=
  if reps ≤ 0 then some 0
  else if reps = 1 then some weight
  else if reps = 37 then none
  else some (weight * (36 / (37 - (reps : ℚ))))

/-- `e1rm` (metrics.py): select formula (anything other than `"brzycki"` is
Epley), round to two decimals. -/
def e1rm (weight : ℚ) (reps : ℤ) (formula : String) : Option ℚ :=
  if formula = "brzycki" then (e1rm_brzycki weight reps).map round2
  else some (round2 (e1rm_epley weight reps))

/-- The e1rm value exactly as the spec claim states it: `0` when `r ≤ 0`,
exactly `w` when `r = 1`, otherwise the rounded formula.  (Written from the
spec's words, for comparison with the source functions; at `r = 37` the
Brzycki expression `36 / (37 − r)` is mathematically undefined — under
Lean's total `ℚ` division it evaluates via `36 / 0 = 0`.) -/
def e1rmClaimed (weight : ℚ) (reps : ℤ) (formula : String) : ℚ :=
  if reps ≤ 0 then 0
  else if reps = 1 then weight
  else if formula = "brzycki" then round2 (weight * 36 / (37 - (reps : ℚ)))
  else round2 (weight * (1 + (reps : ℚ) / 30))

/-- The amended e1rm statement: the `reps = 1` branch also passes through
`round(·, 2)` (so `e1rm(w, 1, f) = w` exactly only when `w` already has at
most two decimals), and for Brzycki `reps = 37` raises instead of returning
a value. -/
def e1rmAmended (weight : ℚ) (reps : ℤ) (formula : String) : ℚ :=
  if reps ≤ 0 then 0
  else if reps = 1 then round2 weight
  else if formula = "brzycki" then round2 (weight * (36 / (37 - (reps : ℚ))))
  else round2 (weight * (1 + (reps : ℚ) / 30))

/-! ## Dict helpers (Python `dict` as an insertion-ordered assoc list) -/

/-- `d[k] = v`: replace in place when the key exists, else append. -/
def dictAssign : List (String × α) → String → α → List (String × α)
  | [], k, v => [(k, v)]
  | p :: t, k, v => if p.1 == k then (k, v) :: t else p :: dictAssign t k v

/-- `d.setdefault(k, v)`: insert only when the key is absent. -/
def dictSetdefault : List (String × α) → String → α → List (String × α)
  | [], k, v => [(k, v)]
  | p :: t, k, v => if p.1 == k then p :: t else p :: dictSetdefault t k v

/-- `k in d`. -/
def dictContains : List (String × α) → String → Bool
  | [], _ => false
  | p :: t, k => p.1 == k || dictContains t k

/-- `d.get(k)` (`None` when absent). -/
def dictLookup : List (String × α) → String → Option α
  | [], _ => none
  | p :: t, k => if p.1 == k then some p.2 else dictLookup t k

/-! ## Data model (`models.py`) -/

/-- `AddedLoad` (models.py): the added load of a `bodyweight_plus` set. -/
structure AddedLoad where
  value : ℚ
  unit : String
deriving Repr, DecidableEq

/-- `SetRecord` (models.py). -/
structure SetRecord where
  set_index : ℤ
  weight : Option ℚ := none
  unit : Option String := none
  reps : ℤ
  load_type : String := "weighted"
  added_load : Option AddedLoad := none
  rpe : Option ℚ := none
  set_type : Option String := none
  notes : Option String := none
deriving Repr, DecidableEq

/-- `ExerciseMapping` (models.py): how an exercise name was resolved. -/
structure ExerciseMapping where
  strategy : String
  score : ℚ
deriving Repr, DecidableEq

/-- `ExerciseRecord` (models.py). -/
structure ExerciseRecord where
  exercise_raw : String
  exercise_id : String
  exercise_display : String
  mapping : Option ExerciseMapping := none
  sets : List SetRecord := []
deriving Repr, DecidableEq

/-- `SessionRecord` (models.py). -/
structure SessionRecord where
  session_id : String
  date : Option String := none
  title : Option String := none
  notes : Option String := none
  exercises : List ExerciseRecord := []
deriving Repr, DecidableEq

/-- `CanonicalLog` (models.py). -/
structure CanonicalLog where
  sessions : List SessionRecord := []
deriving Repr, DecidableEq

/-- `IssueRecord` (models.py). -/
structure IssueRecord where
  severity : String
  type : String
  location : String
  message : String
  raw_excerpt : Option String := none
  question_to_user : Option String := none
  options : Option (List String) := none
  suggested_exercise_ids : Option (List String) := none
deriving Repr, DecidableEq

/-- `IngestSummary` (models.py). -/
structure IngestSummary where
  sessions_detected : ℕ := 0
  exercises_detected : ℕ := 0
  sets_detected : ℕ := 0
  unmapped_exercises : ℕ := 0
  confidence : ℚ := 0
deriving Repr, DecidableEq

/-- `IngestLogOutput` (models.py).  The `signature.canonical_sha256` field
(the SHA-256 digest of the sorted-keys JSON serialization of
`canonical_log`) is not modelled — it is a fixed deterministic function of
`canonical_log`; `parser_version` stands in for the signature, and the
`meta` dict is flattened into the two llm flags. -/
structure IngestLogOutput where
  status : String
  user_id : String
  log_id : Option String := none
  canonical_log : CanonicalLog
  issues : List IssueRecord := []
  summary : IngestSummary
  parser_version : String
  meta_llm_available : Bool := false
  meta_llm_used : Bool := false
deriving Repr, DecidableEq

/-- `UserInput` (models.py). -/
structure UserInput where
  user_id : Option String := none
  default_unit : String := "lb"
  timezone : String := "UTC"
deriving Repr, DecidableEq

/-- `IngestOptions` (models.py). -/
structure IngestOptions where
  session_date_hint : Option String := none
  allow_llm : Bool := false
  strictness : String := "normal"
  dedupe_strategy : String := "none"
deriving Repr, DecidableEq

/-- A registry entry (external read-only data; `models.py` registry shape):
`display` is `none` when the key is absent from the JSON object, and
`aliases` is the (possibly empty) alias list. -/
structure RegEntry where
  exercise_id : String
  display : Option String := none
  aliases : List String := []
deriving Repr, DecidableEq

/-- A loosely-typed raw set dict from a parser (CSV/JSON/LLM intermediate
shape).  `Option (Option ℚ)` distinguishes an absent key (`none`) from a
key present with value `None` (`some none`); values are numeric in the
model. -/
structure RawSet where
  load_type : Option String := none
  weight : Option (Option ℚ) := none
  reps : Option (Option ℚ) := none
  added_load : Option (Option ℚ × Option String) := none
  added_weight : Option ℚ := none
  added_weight_unit : Option String := none
  unit : Option String := none
  rpe : Option ℚ := none
  set_type : Option String := none
  notes : Option String := none
deriving Repr, DecidableEq

/-! ## `normalize.py`: resolver, slugging, units, dates, set normalization -/

def PARSER_VERSION : String := "1.0.0"

/-- `EXERCISE_ALIASES` (normalize.py): the global exact-synonym table. -/
def EXERCISE_ALIASES : List (String × String) :=
  [ ("barbell bench press", "barbell_bench_press")
  , ("bench press", "barbell_bench_press")
  , ("bench", "barbell_bench_press")
  , ("back squat", "back_squat")
  , ("squat", "back_squat")
  , ("squats", "back_squat")
  , ("deadlift", "deadlift")
  , ("romanian deadlift", "romanian_deadlift")
  , ("rdl", "romanian_deadlift")
  , ("barbell row", "barbell_row")
  , ("seated row", "seated_row")
  , ("overhead press", "overhead_press")
  , ("ohp", "overhead_press")
  , ("lat pulldown", "lat_pulldown")
  , ("pull up", "pull_up")
  , ("pull ups", "pull_up")
  , ("pull-up", "pull_up")
  , ("pullups", "pull_up")
  , ("pullup", "pull_up")
  , ("chin-up", "chin_up")
  , ("chin up", "chin_up")
  , ("dumbbell curl", "dumbbell_curl")
  , ("tricep pushdown", "triceps_pushdown")
  , ("leg press", "leg_press")
  , ("leg curl", "leg_curl")
  , ("leg extension", "leg_extension")
  ]

/-- A Python `\w` word character (ASCII model: letters, digits, underscore). -/
def isWordChar (c : Char) : Bool := c.isAlphanum || c = '_'

/-- A character of the class `[-\s]` (hyphen or whitespace). -/
def isDashOrWs (c : Char) : Bool := c = '-' || c.isWhitespace

theorem length_dropWhile_le (p : α → Bool) (l : List α) :
    (l.dropWhile p).length ≤ l.length := by
  induction l with
  | nil => simp
  | cons x xs ih => by_cases h : p x <;> simp [List.dropWhile_cons, h] <;> omega

/-- `re.sub(r"[-\s]+", "_", ·)`: each maximal run of hyphens/whitespace
becomes a single underscore. -/
def subDashWsRuns : List Char → List Char
  | [] => []
  | c :: rest =>
    if isDashOrWs c then '_' :: subDashWsRuns (rest.dropWhile isDashOrWs)
    else c :: subDashWsRuns rest
termination_by cs => cs.length
decreasing_by
  · simp only [List.length_cons]
    exact Nat.lt_succ_of_le (length_dropWhile_le _ _)
  · simp

/-- `slug_exercise` (normalize.py): strip + lower, drop `[^\w\s-]`,
collapse `[-\s]+` to `_`, default `"unknown"`. -/
def slug_exercise (raw : String) : String :=
  let s := (pyLower (pyStrip raw)).toList
  let s := s.filter (fun c => isWordChar c || c.isWhitespace || c = '-')
  let s := subDashWsRuns s
  if s.isEmpty then "unknown" else String.mk s

/-- `normalize_unit` (normalize.py). -/
def normalize_unit (unit : Option String) (dflt : String) : String :=
  let u := pyLower (pyStrip (unit.getD ""))
  if (["lb", "lbs", "pound", "pounds"] : List String).contains u then "lb"
  else if (["kg", "kilo", "kilogram", "kilograms"] : List String).contains u then "kg"
  else dflt

/-- `re.match(r"^\d{4}-\d{2}-\d{2}$", s)`: the already-ISO fast path of
`normalize_date`. -/
def isIsoShaped (s : String) : Bool :=
  match s.toList with
  | [y1, y2, y3, y4, s1, m1, m2, s2, d1, d2] =>
    y1.isDigit && y2.isDigit && y3.isDigit && y4.isDigit && s1 = '-' &&
    m1.isDigit && m2.isDigit && s2 = '-' && d1.isDigit && d2.isDigit
  | _ => false

/-- Gregorian leap year (as `datetime` validates it). -/
def isLeapYear (y : ℕ) : Bool := (y % 4 = 0 && y % 100 ≠ 0) || y % 400 = 0

/-- Days in a month (as `datetime` validates them). -/
def daysInMonth (y m : ℕ) : ℕ :=
  if m = 2 then (if isLeapYear y then 29 else 28)
  else if (([4, 6, 9, 11] : List ℕ).contains m) then 30 else 31

/-- A `strptime` integer field: all digits, between 1 and `maxw` wide. -/
def strptimeField (cs : List Char) (maxw : ℕ) : Option ℕ :=
  if cs.length = 0 ∨ maxw < cs.length ∨ ¬ cs.all Char.isDigit then none
  else some (digitsVal cs)

/-- Left-pad a number with zeros to the given width. -/
def padNum (n w : ℕ) : String :=
  let s := toString n
  String.mk (List.replicate (w - s.length) '0') ++ s

/-- One `datetime.strptime` attempt for a three-field date format: `sep` is
the literal separator, `order` maps the three fields to (year, month, day).
Returns the validated (year, month, day) on success. -/
def strptimeYmdFields (s : String) (sep : Char) (order : ℕ × ℕ × ℕ → ℕ × ℕ × ℕ) :
    Option (ℕ × ℕ × ℕ) :=
  match splitOnChar sep s.toList with
  | [a, b, c] => do
    let fa ← strptimeField a 4
    let fb ← strptimeField b 4
    let fc ← strptimeField c 4
    let (y, m, d) := order (fa, fb, fc)
    -- field width limits: %Y up to 4 digits, %m and %d up to 2
    let wids := order (a.length, b.length, c.length)
    if wids.1 ≤ 4 ∧ wids.2.1 ≤ 2 ∧ wids.2.2 ≤ 2 ∧
        1 ≤ y ∧ y ≤ 9999 ∧ 1 ≤ m ∧ m ≤ 12 ∧ 1 ≤ d ∧ d ≤ daysInMonth y m then
      some (y, m, d)
    else none
  | _ => none

/-- Render (year, month, day) as `strftime("%Y-%m-%d")`. -/
def renderYmd (t : ℕ × ℕ × ℕ) : String :=
  padNum t.1 4 ++ "-" ++ padNum t.2.1 2 ++ "-" ++ padNum t.2.2 2

/-- One `datetime.strptime` attempt rendered back as `%Y-%m-%d`. -/
def strptimeYmd (s : String) (sep : Char) (order : ℕ × ℕ × ℕ → ℕ × ℕ × ℕ) :
    Option String :=
  (strptimeYmdFields s sep order).map renderYmd

/-- `normalize_date` (normalize.py): ISO fast path, then the fixed format
list `%Y-%m-%d`, `%m/%d/%Y`, `%d/%m/%Y`, `%m-%d-%Y`, `%d-%m-%Y`, falling
back to the hint. -/
def normalize_date (value : Option String) (hint : Option String) : Option String :=
  match value with
  | none => hint
  | some v =>
    if pyStrip v = "" then hint
    else
      let s := pyStrip v
      if isIsoShaped s then some s
      else
        let tries :=
          [ strptimeYmd s '-' (fun t => t)                                -- %Y-%m-%d
          , strptimeYmd s '/' (fun t => (t.2.2, t.1, t.2.1))              -- %m/%d/%Y
          , strptimeYmd s '/' (fun t => (t.2.2, t.2.1, t.1))              -- %d/%m/%Y
          , strptimeYmd s '-' (fun t => (t.2.2, t.1, t.2.1))              -- %m-%d-%Y
          , strptimeYmd s '-' (fun t => (t.2.2, t.2.1, t.1))              -- %d-%m-%Y
          ]
        match tries.findSome? id with
        | some d => some d
        | none => hint

/-- The display-map key of a registry entry (`_load_registry`): present only
when the entry has a non-empty `display`. -/
def displayKeyOf (e : RegEntry) : Option String :=
  match e.display with
  | none => none
  | some d => if d = "" then none else some (pyLower (pyStrip d))

/-- The alias additions of one registry entry (`_load_registry` inner
loop): an alias is added (first occurrence wins) only when it does not
collide with a display key loaded so far. -/
def addAliases (dm : List (String × RegEntry)) (e : RegEntry)
    (am : List (String × RegEntry)) : List (String × RegEntry) :=
  e.aliases.foldl
    (fun am a =>
      if a ≠ "" && ¬ dictContains dm (pyLower (pyStrip a)) then
        dictSetdefault am (pyLower (pyStrip a)) e
      else am)
    am

/-- The `_load_registry` loop from a given map state. -/
def buildRegistryMapsFrom (dm am : List (String × RegEntry)) :
    List RegEntry → List (String × RegEntry) × List (String × RegEntry)
  | [] => (dm, am)
  | e :: rest =>
    let dm' := match displayKeyOf e with
      | some k => dictAssign dm k e
      | none => dm
    buildRegistryMapsFrom dm' (addAliases dm' e am) rest

/-- `_load_registry` (normalize.py): build `_registry_by_display` and
`_registry_by_alias` from the registry list, in file order. -/
def buildRegistryMaps (reg : List RegEntry) :
    List (String × RegEntry) × List (String × RegEntry) :=
  buildRegistryMapsFrom [] [] reg

/-- Truthiness of the optional source-app argument. -/
def sourceTruthy : Option String → Bool
  | none => false
  | some s => s ≠ ""

/-- The alias pack consulted for a source (`_load_source_pack` returns an
empty pack when the source key strips to empty; `pack` is the loaded table
with lower-cased trimmed keys). -/
def packLookup (source : Option String) (pack : String → Option String)
    (key : String) : Option String :=
  match source with
  | none => none
  | some s =>
    if s ≠ "" then
      if pyLower (pyStrip s) = "" then none else pack key
    else none

/-- `resolve_exercise` (normalize.py): precedence chain
source pack → global alias → registry display → registry alias → unmapped,
parameterized by the external alias pack and registry data. -/
def resolve_exercise (raw : String) (source : Option String)
    (pack : String → Option String) (reg : List RegEntry) :
    String × String × String × ℚ :=
  let key := pyStrip raw
  let key_lower := pyLower key
  let display_orig := key
  match packLookup source pack key_lower with
  | some eid =>
    (match reg.find? (fun ent => ent.exercise_id == eid) with
     | some ent => (eid, ent.display.getD display_orig, "source_pack", 1)
     | none => (eid, display_orig, "source_pack", 1))
  | none =>
    match dictLookup EXERCISE_ALIASES key_lower with
    | some eid => (eid, display_orig, "global_alias", 95/100)
    | none =>
      let maps := buildRegistryMaps reg
      match dictLookup maps.1 key_lower with
      | some ent => (ent.exercise_id, ent.display.getD display_orig, "registry_display", 9/10)
      | none =>
        match dictLookup maps.2 key_lower with
        | some ent => (ent.exercise_id, ent.display.getD display_orig, "registry_alias", 85/100)
        | none => ("unmapped:" ++ slug_exercise raw, display_orig, "unmapped", 0)

/-- Insert into an ascending list of strings (used to model Python
`sorted` over a set of distinct ids). -/
def insertAsc (x : String) : List String → List String
  | [] => [x]
  | y :: ys => if x ≤ y then x :: y :: ys else y :: insertAsc x ys

/-- Sort strings ascending. -/
def sortStrings (l : List String) : List String := l.foldr insertAsc []

/-- `suggest_exercises_for_unmapped` (normalize.py): registry ids whose
display or an alias is an exact (case-insensitive) substring of `raw` or
vice versa; distinct, sorted, capped. -/
def suggest_exercises_for_unmapped (raw : String) (max_suggestions : ℕ)
    (reg : List RegEntry) : List String :=
  if reg.isEmpty then []
  else
    let raw_lower := pyLower (pyStrip raw)
    if raw_lower = "" then []
    else
      let seen := reg.foldl
        (fun seen e =>
          let eid := e.exercise_id
          if eid = "" || seen.contains eid then seen
          else
            let display_lower := pyLower (e.display.getD "")
            if strContains display_lower raw_lower || strContains raw_lower display_lower then
              seen ++ [eid]
            else if e.aliases.any (fun a =>
                let al := pyLower a
                strContains al raw_lower || strContains raw_lower al) then
              seen ++ [eid]
            else seen)
        []
      (sortStrings seen).take max_suggestions

/-- Python `int(x)` on an optional numeric value: `int(None)` raises. -/
def pyInt : Option ℚ → Except String ℤ
  | none => .error "int() argument must not be None"
  | some q => .ok (truncToInt q)

/-- `SetRecord._check_load_type_fields` (models.py): the pydantic model
validator; a violation raises `ValueError`, modelled as `.error`. -/
def mkSetRecord (s : SetRecord) : Except String SetRecord :=
  if s.load_type = "weighted" then
    if s.weight = none then .error "weight required when load_type is weighted"
    else if s.unit = none then .error "unit required when load_type is weighted"
    else .ok s
  else if s.load_type = "bodyweight" then
    if s.weight ≠ none then .error "weight must be null when load_type is bodyweight"
    else .ok s
  else if s.load_type = "bodyweight_plus" then
    if s.weight ≠ none then .error "weight must be null when load_type is bodyweight_plus"
    else if s.added_load = none then .error "added_load required when load_type is bodyweight_plus"
    else .ok s
  else if s.load_type = "assisted" then
    if s.weight ≠ none then .error "weight must be null when load_type is assisted"
    else .ok s
  else .ok s

/-- `normalize_set` (normalize.py): build a `SetRecord` from a raw dict. -/
def normalize_set (raw : RawSet) (set_index : ℤ) (default_unit : String) :
    Except String SetRecord := do
  let lt0 := match raw.load_type with
    | some s => if s = "" then "weighted" else s
    | none => "weighted"
  let lt1 := pyLower (pyStrip lt0)
  let load_type :=
    if (["weighted", "bodyweight", "bodyweight_plus", "assisted"] : List String).contains lt1
    then lt1 else "weighted"
  let reps ← pyInt (raw.reps.getD (some 0))
  let rpe := match raw.rpe with
    | some x => if x = 0 then none else some x
    | none => none
  let set_type := match raw.set_type with
    | some s =>
      if s = "" then none
      else if (["warmup", "working", "top", "backoff"] : List String).contains s
      then some s else none
    | none => none
  let notes := match raw.notes with
    | some s => if s = "" then none else some s
    | none => none
  if load_type = "bodyweight" then
    mkSetRecord
      { set_index, weight := none, unit := none, reps, load_type := "bodyweight",
        added_load := none, rpe, set_type, notes }
  else if load_type = "bodyweight_plus" then
    let added_load := match raw.added_load with
      | some (v, u0) =>
        let u := normalize_unit u0 default_unit
        AddedLoad.mk (round2 (v.getD 0)) (if u = "lb" ∨ u = "kg" then u else "lb")
      | none =>
        let added := round2 (raw.added_weight.getD 0)
        let au := normalize_unit (pyOr raw.added_weight_unit raw.unit) default_unit
        AddedLoad.mk added (if au = "lb" ∨ au = "kg" then au else "lb")
    mkSetRecord
      { set_index, weight := none, unit := none, reps, load_type := "bodyweight_plus",
        added_load := some added_load, rpe, set_type, notes }
  else
    let w := raw.weight.getD (some 0)
    let weight := w.map round2
    let unit := normalize_unit raw.unit default_unit
    mkSetRecord
      { set_index, weight, unit := some unit, reps, load_type := "weighted",
        added_load := none, rpe, set_type, notes }

/-- The `enumerate` loop of `normalize_exercise`: normalize each raw set
with its 1-based index (`i` is the number of sets already consumed). -/
def normSets (raws : List RawSet) (i : ℕ) (default_unit : String) :
    Except String (List SetRecord) :=
  match raws with
  | [] => .ok []
  | r :: rest => do
    let s ← normalize_set r ((i : ℤ) + 1) default_unit
    let ss ← normSets rest (i + 1) default_unit
    .ok (s :: ss)

/-- `normalize_exercise` (normalize.py). -/
def normalize_exercise (raw_name : String) (raw_sets : List RawSet)
    (default_unit : String) (source : Option String)
    (pack : String → Option String) (reg : List RegEntry) :
    Except String ExerciseRecord := do
  let r := resolve_exercise raw_name source pack reg
  let sets ← normSets raw_sets 0 default_unit
  .ok { exercise_raw := raw_name, exercise_id := r.1, exercise_display := r.2.1,
        mapping := some ⟨r.2.2.1, r.2.2.2⟩, sets }

/-- The exercise list of `normalize_session`. -/
def normExercises (raw_exercises : List (String × List RawSet))
    (default_unit : String) (source : Option String)
    (pack : String → Option String) (reg : List RegEntry) :
    Except String (List ExerciseRecord) :=
  match raw_exercises with
  | [] => .ok []
  | (name, sets) :: rest => do
    let ex ← normalize_exercise name sets default_unit source pack reg
    let exs ← normExercises rest default_unit source pack reg
    .ok (ex :: exs)

/-- `normalize_session` (normalize.py); `title`/`notes` are `None` at every
call site in the pipeline. -/
def normalize_session (session_id : String) (date : Option String)
    (raw_exercises : List (String × List RawSet)) (default_unit : String)
    (source : Option String) (pack : String → Option String)
    (reg : List RegEntry) : Except String SessionRecord := do
  let exercises ← normExercises raw_exercises default_unit source pack reg
  .ok { session_id, date, title := none, notes := none, exercises }

/-! ## `ingest.py`: CSV parsing, confidence, canonical build, pipeline -/

/-- `str.startswith` over full strings. -/
def strStartsWith (s pre : String) : Bool := pre.toList.isPrefixOf s.toList

/-- `_parse_weight` (ingest.py): classify one CSV weight cell as
`(weight_or_none, load_type, added_weight_or_none)`. -/
def parse_weight (val : Option String) : Option ℚ × String × Option ℚ :=
  match val with
  | none => (some 0, "weighted", none)
  | some raw =>
    if raw = "" then (some 0, "weighted", none)
    else
      let v := pyStrip raw
      let v_lower := pyLower v
      if (["bodyweight", "bw", "-", "—"] : List String).contains v_lower then
        (none, "bodyweight", none)
      else if startsWithChar v '+' then
        -- float(v.replace("+", "").strip() or 0)
        let rem := pyStrip (String.mk (v.toList.filter (fun c => c ≠ '+')))
        match (if rem = "" then some 0 else pythonFloat rem) with
        | some added => (none, "bodyweight_plus", some added)
        | none => (none, "weighted", none)
      else
        -- float(v or 0); v is non-empty here
        match (if v = "" then some 0 else pythonFloat v) with
        | some w => (some w, "weighted", none)
        | none => (none, "weighted", none)

/-- One `csv.DictReader` row: cells zipped against the header fields,
missing trailing cells filled with `None` (`restval`), extra cells
dropped; duplicate field names resolved later-wins like a Python dict. -/
def csvRowDict (fieldnames : List String) (cells : List String) :
    List (String × Option String) :=
  (List.range fieldnames.length).foldl
    (fun m idx =>
      dictAssign m (fieldnames.getD idx "") (cells.getD idx "" |> fun c =>
        if idx < cells.length then some c else none))
    []

/-- `row.get(col)` over a row dict (`none` both for an absent key and for a
`None` cell). -/
def rawGet (row : List (String × Option String)) (col : String) : Option String :=
  (dictLookup row col).getD none

/-- First column (in header order) whose normalized name contains `sub`
(the `next(col_map[k] for k in col_map if sub in k)` fallback). -/
def colMapFind (col_map : List (String × String)) (sub : String) : Option String :=
  (col_map.find? (fun p => strContains p.1 sub)).map (fun p => p.2)

/-- The per-row loop body of `parse_csv`: returns `none` when the row is
skipped, the crash marker for the `None.strip()` date-cell path, and
otherwise `(date_or_none, exercise, set_dict)`. -/
def parseCsvRow (row : List (String × Option String))
    (ex_col weight_col reps_col : String)
    (unit_col rpe_col set_type_col date_col : Option String) :
    Except String (Option (Option String × String × RawSet)) := do
  let ex := pyStrip ((rawGet row ex_col).getD "")
  if ex = "" then return none
  let repsv := match rawGet row reps_col with
    | none => none
    | some s => pythonIntViaFloat s
  match repsv with
  | none => return none
  | some reps =>
    let (w, load_type, added) := parse_weight (rawGet row weight_col)
    if w = none ∧ load_type = "weighted" then return none
    let weight : Option (Option ℚ) := if load_type = "weighted" then some (some (w.getD 0)) else some none
    let added_weight : Option ℚ :=
      if load_type = "bodyweight_plus" ∧ added ≠ none then some (round2 (added.getD 0)) else none
    let added_weight_unit : Option String :=
      if load_type = "bodyweight_plus" ∧ added ≠ none then
        if pyTruthy unit_col ∧ pyTruthy (rawGet row (unit_col.getD "")) then
          let u := pyLower (pyStrip ((rawGet row (unit_col.getD "")).getD ""))
          if u ≠ "" ∧ ¬ (["bodyweight", "bw", "-"] : List String).contains u then
            some (if (["lb", "lbs", "pound", "pounds"] : List String).contains u then "lb" else "kg")
          else some "lb"
        else some "lb"
      else none
    let unit : Option String :=
      if pyTruthy unit_col ∧ pyTruthy (rawGet row (unit_col.getD "")) ∧ load_type = "weighted" then
        let u := pyLower (pyStrip ((rawGet row (unit_col.getD "")).getD ""))
        if u ≠ "" ∧ ¬ (["bodyweight", "bw", "-"] : List String).contains u then some u
        else none
      else none
    let rpe : Option ℚ :=
      if pyTruthy rpe_col ∧ pyTruthy (rawGet row (rpe_col.getD "")) then
        pythonFloat ((rawGet row (rpe_col.getD "")).getD "")
      else none
    let set_type : Option String :=
      if pyTruthy set_type_col ∧ pyTruthy (rawGet row (set_type_col.getD "")) then
        some (pyLower (pyStrip ((rawGet row (set_type_col.getD "")).getD "")))
      else none
    let date_val : Except String (Option String) :=
      if pyTruthy date_col then
        match rawGet row (date_col.getD "") with
        | none => .error "AttributeError: NoneType object has no attribute strip"
        | some s => .ok (some (pyStrip s))
      else .ok none
    match date_val with
    | .error e => .error e
    | .ok dv =>
      let sd : RawSet :=
        { load_type := some load_type, weight, reps := some (some (reps : ℚ)),
          added_load := none, added_weight, added_weight_unit, unit, rpe, set_type,
          notes := none }
      return some (if pyTruthy dv then dv else none, ex, sd)

/-- Append a set to the per-date block list: extend the last block when it
has the same exercise name, else start a new block. -/
def appendToBlocks (blocks : List (String × List RawSet)) (ex : String) (sd : RawSet) :
    List (String × List RawSet) :=
  match blocks.getLast? with
  | some (lastEx, lastSets) =>
    if lastEx = ex then blocks.dropLast ++ [(lastEx, lastSets ++ [sd])]
    else blocks ++ [(ex, [sd])]
  | none => [(ex, [sd])]

/-- The `by_date` grouping loop of `parse_csv` (insertion-ordered dict of
date key → exercise blocks). -/
def groupByDate (rows : List (Option String × String × RawSet)) :
    List (String × List (String × List RawSet)) :=
  rows.foldl
    (fun m row =>
      let key := row.1.getD ""
      match dictLookup m key with
      | some blocks => dictAssign m key (appendToBlocks blocks row.2.1 row.2.2)
      | none => m ++ [(key, [(row.2.1, [row.2.2])])])
    []

/-- The dateless contiguous-run grouping loop of `parse_csv`
(state: current exercise name, its sets, finished groups). -/
def groupContiguous (rows : List (Option String × String × RawSet)) :
    List (String × List RawSet) :=
  let st := rows.foldl
    (fun (st : Option String × List RawSet × List (String × List RawSet)) row =>
      let (cur, curSets, out) := st
      let ex := row.2.1
      if cur ≠ some ex then
        let out := match cur with
          | some c => if ¬ curSets.isEmpty then out ++ [(c, curSets)] else out
          | none => out
        (some ex, [row.2.2], out)
      else (cur, curSets ++ [row.2.2], out))
    (none, [], [])
  match st.1 with
  | some c => if ¬ st.2.1.isEmpty then st.2.2 ++ [(c, st.2.1)] else st.2.2
  | none => st.2.2

/-- `parse_csv` (ingest.py).  Cells are split on commas (RFC‑4180 quoting
is not modelled); the `.error` case is the `None.strip()` crash on a date
cell missing from a short row. -/
def parse_csv (content : String) :
    Except String (List (Option String × List (String × List RawSet))) := do
  let lines := (splitLines (pyStrip content)).map pyStrip |>.filter (fun l => l ≠ "")
  match lines with
  | [] => return []
  | header :: rows =>
    let fieldnames := (splitOnChar ',' header.toList).map String.mk
    let fnorm := fieldnames.map (fun f => pyLower (pyStrip f))
    let col_map := (List.range fnorm.length).foldl
      (fun m i => dictAssign m (fnorm.getD i "") (fieldnames.getD i "")) []
    let ex_col := pyOr (dictLookup col_map "exercise")
      (pyOr (dictLookup col_map "exercise name") (colMapFind col_map "exercise"))
    let weight_col := pyOr (dictLookup col_map "weight") (colMapFind col_map "weight")
    let reps_col := pyOr (dictLookup col_map "reps")
      (pyOr (dictLookup col_map "rep") (colMapFind col_map "rep"))
    let unit_col := pyOr (dictLookup col_map "unit") (dictLookup col_map "units")
    let rpe_col := dictLookup col_map "rpe"
    let set_type_col := pyOr (dictLookup col_map "set_type") (dictLookup col_map "set type")
    let date_col := pyOr (dictLookup col_map "date")
      (pyOr (dictLookup col_map "workout date") (colMapFind col_map "date"))
    if ¬ (pyTruthy ex_col ∧ pyTruthy weight_col ∧ pyTruthy reps_col) then return []
    let ex_col := ex_col.getD ""
    let weight_col := weight_col.getD ""
    let reps_col := reps_col.getD ""
    let row_tuples ← rows.foldlM
      (fun acc line => do
        let row := csvRowDict fieldnames ((splitOnChar ',' line.toList).map String.mk)
        match ← parseCsvRow row ex_col weight_col reps_col unit_col rpe_col set_type_col date_col with
        | some t => pure (acc ++ [t])
        | none => pure acc)
      ([] : List (Option String × String × RawSet))
    if row_tuples.isEmpty then return []
    if pyTruthy date_col then
      return (groupByDate row_tuples).filterMap
        (fun p => if p.1 ≠ "" then some (some p.1, p.2) else none)
    else
      return [(none, groupContiguous row_tuples)]

/-- `CONFIDENCE_PENALTY` (ingest.py, ingest_policy v1.1). -/
def CONFIDENCE_PENALTY : List (String × ℚ) :=
  [ ("missing_date", 15/100)
  , ("missing_date_autofilled", 15/100)
  , ("invalid_exercise_name", 20/100)
  , ("incomplete_set", 10/100)
  , ("ambiguous_exercise", 15/100)
  , ("ambiguous_set_format", 15/100)
  , ("unmapped_exercise", 10/100)
  ]

def CONFIDENCE_FLOOR : ℚ := 25/100

def CONFIDENCE_THRESHOLD : ℚ := 70/100

/-- `_compute_confidence` (ingest.py): start at 1.0, subtract the table
penalty per issue, round to 2 decimals, clamp to `[0.25, 1.0]`. -/
def compute_confidence (issues : List IssueRecord) : ℚ :=
  let c := issues.foldl
    (fun c i =>
      match dictLookup CONFIDENCE_PENALTY i.type with
      | some p => c - p
      | none => c)
    1
  max CONFIDENCE_FLOOR (min 1 (round2 c))

/-- The `unmapped_exercise` issues emitted for session `i` by
`build_canonical_log`. -/
def unmappedIssuesOf (sess : SessionRecord) (i : ℕ) (reg : List RegEntry) :
    List IssueRecord :=
  (List.range sess.exercises.length).filterMap
    (fun j =>
      match sess.exercises.get? j with
      | some ex =>
        if strStartsWith ex.exercise_id "unmapped:" then
          let suggested := suggest_exercises_for_unmapped ex.exercise_raw 3 reg
          some
            { severity := "warning", type := "unmapped_exercise",
              location := "sessions[" ++ natStr i ++ "].exercises[" ++ natStr j ++ "]",
              message := "Exercise not in mapping dictionary; stored as " ++ ex.exercise_id
                ++ ". Add an exact synonym if this is a known lift.",
              raw_excerpt := some ex.exercise_raw,
              suggested_exercise_ids := if suggested.isEmpty then none else some suggested }
        else none
      | none => none)

/-- The per-session loop of `build_canonical_log`; `i` is the enumerate
index and `freshSess` supplies the `uuid4().hex` draw for each session. -/
def buildSessions (rs : List (Option String × List (String × List RawSet)))
    (i : ℕ) (default_unit : String) (hint : Option String)
    (source : Option String) (pack : String → Option String)
    (reg : List RegEntry) (freshSess : ℕ → String) :
    Except String (List SessionRecord × List IssueRecord) :=
  match rs with
  | [] => .ok ([], [])
  | (date_str, exercises) :: rest => do
    let session_id := "sess_" ++ pyTake (freshSess i) 8
    let norm_date := if pyTruthy date_str then normalize_date date_str hint else hint
    let dateIssues : List IssueRecord :=
      if ¬ pyTruthy norm_date then
        [ { severity := "warning", type := "missing_date",
            location := "session_" ++ natStr i,
            message := "Session date not provided; session stored with date null. Provide session_date_hint to set a date." } ]
      else if ¬ pyTruthy date_str ∧ pyTruthy hint then
        [ { severity := "warning", type := "missing_date_autofilled",
            location := "session_" ++ natStr i,
            message := "Session date was missing; used session_date_hint." } ]
      else []
    let sess ← normalize_session session_id norm_date exercises default_unit source pack reg
    let tl ← buildSessions rest (i + 1) default_unit hint source pack reg freshSess
    .ok (sess :: tl.1, dateIssues ++ unmappedIssuesOf sess i reg ++ tl.2)

/-- `build_canonical_log` (ingest.py). -/
def build_canonical_log (rs : List (Option String × List (String × List RawSet)))
    (default_unit : String) (session_date_hint : Option String)
    (source : Option String) (pack : String → Option String)
    (reg : List RegEntry) (freshSess : ℕ → String) :
    Except String (CanonicalLog × List IssueRecord) :=
  (buildSessions rs 0 default_unit session_date_hint source pack reg freshSess).map
    (fun p => (⟨p.1⟩, p.2))

/-- The blocking `missing_date` issue appended under `strictness="strict"`. -/
def strictMissingDateIssue : IssueRecord :=
  { severity := "blocking", type := "missing_date", location := "session",
    message := "Session date is required when strictness=strict. Provide session_date_hint or structured input with date." }

/-- Lines 625–697 of `ingest_log_impl` (ingest.py): everything after the
content-type dispatch — early exit when parsing produced nothing, else
canonical build, confidence, strict-mode escalation, status rule, log id.
`freshUser`/`freshLog`/`freshSess` are the `uuid4` draws. -/
def ingest_after_parse (raw_sessions : List (Option String × List (String × List RawSet)))
    (issues0 : List IssueRecord) (options : IngestOptions) (user : UserInput)
    (source_app : Option String) (pack : String → Option String)
    (reg : List RegEntry) (freshUser freshLog : String) (freshSess : ℕ → String)
    (llm_available llm_used : Bool) : Except String IngestLogOutput :=
  let user_id := if pyTruthy user.user_id then user.user_id.getD "" else "req_" ++ pyTake freshUser 12
  if raw_sessions.isEmpty ∧ ¬ issues0.isEmpty then
    .ok
      { status := if issues0.any (fun i => i.severity == "blocking") then "needs_clarification" else "error",
        user_id, log_id := none, canonical_log := ⟨[]⟩, issues := issues0,
        summary := { confidence := 0 }, parser_version := PARSER_VERSION,
        meta_llm_available := llm_available, meta_llm_used := llm_used }
  else do
    let bc ← build_canonical_log raw_sessions user.default_unit options.session_date_hint
      source_app pack reg freshSess
    let canonical_log := bc.1
    let issues := issues0 ++ bc.2
    let sessions_detected := canonical_log.sessions.length
    let exercises_detected := (canonical_log.sessions.map (fun s => s.exercises.length)).sum
    let sets_detected :=
      (canonical_log.sessions.map (fun s => (s.exercises.map (fun ex => ex.sets.length)).sum)).sum
    let unmapped :=
      (canonical_log.sessions.map
        (fun s => (s.exercises.filter (fun ex => strStartsWith ex.exercise_id "unmapped:")).length)).sum
    let confidence := compute_confidence issues
    let issues :=
      if options.strictness = "strict" ∧ issues.any (fun i => i.type == "missing_date") then
        issues ++ [strictMissingDateIssue]
      else issues
    let has_blocking := issues.any (fun i => i.severity == "blocking")
    let status :=
      if has_blocking ∨ exercises_detected = 0 ∨ sets_detected = 0 ∨ confidence < CONFIDENCE_THRESHOLD
      then "needs_clarification" else "ok"
    let log_id := if status = "ok" ∧ ¬ canonical_log.sessions.isEmpty
      then some ("log_" ++ pyTake freshLog 12) else none
    .ok
      { status, user_id, log_id, canonical_log, issues,
        summary :=
          { sessions_detected, exercises_detected, sets_detected,
            unmapped_exercises := unmapped, confidence },
        parser_version := PARSER_VERSION,
        meta_llm_available := llm_available, meta_llm_used := llm_used }

/-- The `content_type == "csv"` branch of `ingest_log_impl`: parse, emit a
blocking `parse_error` when nothing was parsed, else substitute the session
date hint for missing dates and hand over to the common tail. -/
def ingestCSV (content : String) (user : UserInput) (options0 : Option IngestOptions)
    (source_app : Option String) (pack : String → Option String) (reg : List RegEntry)
    (freshUser freshLog : String) (freshSess : ℕ → String) (llm_available : Bool) :
    Except String IngestLogOutput := do
  let options := options0.getD {}
  let parsed ← parse_csv content
  if parsed.isEmpty then
    ingest_after_parse []
      [ { severity := "blocking", type := "parse_error", location := "csv",
          message := "CSV could not be parsed or required columns (exercise, weight, reps) missing.",
          raw_excerpt := if content ≠ "" then some (pyStrip (pyTake content 200)) else none } ]
      options user source_app pack reg freshUser freshLog freshSess llm_available false
  else
    ingest_after_parse (parsed.map (fun p => (pyOr p.1 options.session_date_hint, p.2)))
      [] options user source_app pack reg freshUser freshLog freshSess llm_available false

/-- The `content_type == "text"` branch of `ingest_log_impl` with
`allow_llm=true` and a configured parser: the parser call is wrapped in
`try/except`, an exception becoming a blocking `llm_parse_error` issue;
its returned intermediate sessions flow into the common tail unchanged. -/
def ingestLLM (content : String) (user : UserInput) (options0 : Option IngestOptions)
    (source_app : Option String)
    (llmFn : String → Option String → Except String (List (Option String × List (String × List RawSet))))
    (pack : String → Option String) (reg : List RegEntry)
    (freshUser freshLog : String) (freshSess : ℕ → String) :
    Except String IngestLogOutput :=
  let options := options0.getD {}
  match llmFn content options.session_date_hint with
  | .ok rs =>
    ingest_after_parse rs [] options user source_app pack reg freshUser freshLog freshSess true true
  | .error e =>
    ingest_after_parse []
      [ { severity := "blocking", type := "llm_parse_error", location := "text", message := e } ]
      options user source_app pack reg freshUser freshLog freshSess true false

/-- Lines 544-637 of `ingest_log_impl` (ingest.py): the content-type
dispatch.  `parse_csv` is the embedded CSV parser; `parse_json` and
`parse_text_fallback` are deterministic functions of the content alone —
they draw no uuids and touch no state — and enter here as explicit
function parameters `jsonParse`/`textParse`, so a statement quantified
over them covers every behavior the real parsers can have.
`llm_available` models `llm_parser is not None`, and `llmFn` the wrapped
parser call (consulted only when available). -/
def ingest_log_dispatch (content_type content : String) (user : UserInput)
    (options0 : Option IngestOptions) (source_app : Option String)
    (jsonParse : String → List (Option String × List (String × List RawSet)))
    (textParse : String → List (String × List RawSet) × List IssueRecord)
    (llm_available : Bool)
    (llmFn : String → Option String → Except String (List (Option String × List (String × List RawSet))))
    (pack : String → Option String) (reg : List RegEntry)
    (freshUser freshLog : String) (freshSess : ℕ → String) :
    Except String IngestLogOutput :=
  let options := options0.getD {}
  if content_type = "csv" then do
    let parsed ← parse_csv content
    if parsed.isEmpty then
      ingest_after_parse []
        [ { severity := "blocking", type := "parse_error", location := "csv",
            message := "CSV could not be parsed or required columns (exercise, weight, reps) missing.",
            raw_excerpt := if content ≠ "" then some (pyStrip (pyTake content 200)) else none } ]
        options user source_app pack reg freshUser freshLog freshSess llm_available false
    else
      ingest_after_parse (parsed.map (fun p => (pyOr p.1 options.session_date_hint, p.2)))
        [] options user source_app pack reg freshUser freshLog freshSess llm_available false
  else if content_type = "json" then
    let parsed := jsonParse content
    if parsed.isEmpty then
      ingest_after_parse []
        [ { severity := "blocking", type := "parse_error", location := "json",
            message := "JSON could not be parsed or has no recognized structure.",
            raw_excerpt := if content ≠ "" then some (pyStrip (pyTake content 200)) else none } ]
        options user source_app pack reg freshUser freshLog freshSess llm_available false
    else
      ingest_after_parse (parsed.map (fun p => (pyOr p.1 options.session_date_hint, p.2)))
        [] options user source_app pack reg freshUser freshLog freshSess llm_available false
  else if content_type = "text" then
    if options.allow_llm ∧ llm_available then
      match llmFn content options.session_date_hint with
      | .ok rs =>
        ingest_after_parse rs [] options user source_app pack reg
          freshUser freshLog freshSess llm_available true
      | .error e =>
        ingest_after_parse []
          [ { severity := "blocking", type := "llm_parse_error", location := "text", message := e } ]
          options user source_app pack reg freshUser freshLog freshSess llm_available false
    else if options.allow_llm ∧ ¬ llm_available then
      let pt := textParse content
      let issues0 :=
        [ ({ severity := "warning", type := "llm_unavailable", location := "text",
             message := "allow_llm=true but no LLM parser is configured; falling back to deterministic parser." } : IssueRecord) ] ++ pt.2
      if pt.1.isEmpty then
        ingest_after_parse []
          (issues0 ++
            [ { severity := "blocking", type := "parse_error", location := "text",
                message := "No valid sets could be extracted from text. Use format Exercise 135x5 or 3x5 at 225 with exercise name in context. Use CSV/JSON or set allow_llm=true if LLM is configured.",
                raw_excerpt := if content ≠ "" then some (pyStrip (pyTake content 200)) else none } ])
          options user source_app pack reg freshUser freshLog freshSess llm_available false
      else
        ingest_after_parse [(options.session_date_hint, pt.1)] issues0
          options user source_app pack reg freshUser freshLog freshSess llm_available false
    else
      let pt := textParse content
      if pt.1.isEmpty then
        ingest_after_parse []
          (pt.2 ++
            [ { severity := "blocking", type := "parse_error", location := "text",
                message := "No valid sets could be extracted from text. Use format Exercise 135x5 or 3x5 at 225 with exercise name in context. Use CSV/JSON or set allow_llm=true if LLM is configured.",
                raw_excerpt := if content ≠ "" then some (pyStrip (pyTake content 200)) else none } ])
          options user source_app pack reg freshUser freshLog freshSess llm_available false
      else
        ingest_after_parse [(options.session_date_hint, pt.1)] pt.2
          options user source_app pack reg freshUser freshLog freshSess llm_available false
  else
    ingest_after_parse []
      [ { severity := "blocking", type := "unsupported_type", location := "log_input",
          message := "Unsupported content_type: " ++ content_type } ]
      options user source_app pack reg freshUser freshLog freshSess llm_available false

/-! ## `metrics.py`: data shapes, calendar helpers, metrics engine -/

/-- Lexicographic `≤` on strings by code point (Python string comparison). -/
def charListLe : List Char → List Char → Bool
  | [], _ => true
  | _ :: _, [] => false
  | a :: as, b :: bs => a < b || (a = b && charListLe as bs)

/-- Python `a <= b` on strings. -/
def pyStrLe (a b : String) : Bool := charListLe a.toList b.toList

/-- `_in_range` (metrics.py): `start <= date_str <= end`. -/
def in_range (date_str start stop : String) : Bool :=
  pyStrLe start date_str && pyStrLe date_str stop

/-- Days since 1970-01-01 of a proleptic-Gregorian civil date
(the `days_from_civil` algorithm `datetime.date` arithmetic agrees with). -/
def days_from_civil (y m d : ℕ) : ℤ :=
  let yy : ℤ := (y : ℤ) - (if m ≤ 2 then 1 else 0)
  let era : ℤ := Int.fdiv yy 400
  let yoe : ℤ := yy - era * 400
  let doy : ℤ := (153 * ((m : ℤ) + (if 2 < m then -3 else 9)) + 2) / 5 + (d : ℤ) - 1
  let doe : ℤ := yoe * 365 + yoe / 4 - yoe / 100 + doy
  era * 146097 + doe - 719468

/-- Civil date of a days-since-1970 count (inverse of `days_from_civil`). -/
def civil_from_days (z0 : ℤ) : ℕ × ℕ × ℕ :=
  let z : ℤ := z0 + 719468
  let era : ℤ := Int.fdiv z 146097
  let doe : ℤ := z - era * 146097
  let yoe : ℤ := (doe - doe / 1460 + doe / 36524 - doe / 146096) / 365
  let y : ℤ := yoe + era * 400
  let doy : ℤ := doe - (365 * yoe + yoe / 4 - yoe / 100)
  let mp : ℤ := (5 * doy + 2) / 153
  let d : ℤ := doy - (153 * mp + 2) / 5 + 1
  let m : ℤ := mp + (if mp < 10 then 3 else -9)
  (((y + (if m ≤ 2 then 1 else 0)).toNat), m.toNat, d.toNat)

/-- `_week_start` (metrics.py): the Monday of the ISO week of a
`%Y-%m-%d` date; an unparseable date raises `ValueError`. -/
def week_start (date_str : String) : Except String String :=
  match strptimeYmdFields date_str '-' (fun t => t) with
  | none => .error "ValueError: time data does not match format %Y-%m-%d"
  | some (y, m, d) =>
    let days := days_from_civil y m d
    let weekday := (days + 3).emod 7      -- Monday = 0 (1970-01-01 was a Thursday)
    .ok (renderYmd (civil_from_days (days - weekday)))

/-- `_is_hard_set` (metrics.py). -/
def is_hard_set (set_type : Option String) : Bool :=
  match set_type with
  | none => true
  | some s => (["working", "top", "backoff"] : List String).contains (pyLower s)

def METRICS_VERSION : String := "1.0.0"

def MAX_SESSIONS : ℕ := 500

def MAX_SETS : ℕ := 10000

/-- `DateRange` (models.py); `end` is a Lean keyword, hence `end_`. -/
structure DateRange where
  start : String
  end_ : String
deriving Repr, DecidableEq

/-- `ComputeMetricsOptions` (models.py). -/
structure ComputeMetricsOptions where
  group_by : Option (List String) := none
  e1rm_formula : String := "epley"
  volume_metric : String := "tonnage"
  include_prs : Bool := true
deriving Repr, DecidableEq

/-- A loosely-typed set dict as consumed by the metrics engine (canonical
`model_dump` output or caller-supplied dicts).  A `reps`/`added_load.value`
key present with a null value would raise in Python and is outside the
model; `weight` merges absent and null (both read back as `None`). -/
structure MSet where
  load_type : Option String := none
  reps : Option ℚ := none
  set_type : Option String := none
  weight : Option ℚ := none
  unit : Option String := none
  added_load : Option (Option ℚ × Option String) := none
  added_weight : Option ℚ := none
  added_weight_unit : Option String := none
deriving Repr, DecidableEq

/-- An exercise dict as consumed by the metrics engine. -/
structure MExercise where
  exercise_id : Option String := none
  sets : List MSet := []
deriving Repr, DecidableEq

/-- A session dict as consumed by the metrics engine. -/
structure MSession where
  date : Option String := none
  exercises : List MExercise := []
deriving Repr, DecidableEq

/-- One row of the `logs=` input: `row.get("canonical_json", {}).
get("sessions", [])`. -/
structure MLogRow where
  canonical_sessions : List MSession := []
deriving Repr, DecidableEq

/-- The duck-typed attribute set `compute_metrics_impl` and
`_normalize_sessions_from_input` (repstack/metrics.py) read off their
payload: `payload.sessions`, `payload.logs`, `payload.range` (treated as
optional), `payload.options`.  The `ComputeMetricsInput` class models.py
actually declares is `ComputeMetricsInputModel` below — it has no
`sessions` or `logs` field, so these reads raise `AttributeError` on a
validated instance. -/
structure MetricsPayload where
  sessions : List MSession := []
  logs : List MLogRow := []
  range : Option DateRange := none
  options : Option ComputeMetricsOptions := none
deriving Repr, DecidableEq

/-- `TopSetRecord` (models.py). -/
structure TopSetRecord where
  exercise_id : String
  weight : ℚ
  unit : String
  reps : ℤ
  e1rm : Option ℚ := none
  date : String
deriving Repr, DecidableEq

/-- `PRRecord` (models.py). -/
structure PRRecord where
  exercise_id : String
  kind : String
  weight : ℚ
  unit : String
  reps : ℤ
  e1rm : Option ℚ := none
  date : String
deriving Repr, DecidableEq

/-- `WeeklyMetrics` (models.py). -/
structure WeeklyMetrics where
  week_start : String
  sessions : ℕ := 0
  hard_sets : ℕ := 0
  tonnage_lb : Option ℚ := none
  tonnage_kg : Option ℚ := none
  tonnage_excluded_sets : ℕ := 0
  tonnage_unknown_sets : ℕ := 0
  top_sets : List TopSetRecord := []
  prs : List PRRecord := []
  flags : List String := []
deriving Repr, DecidableEq

/-- `ExerciseSummary` (models.py). -/
structure ExerciseSummary where
  exercise_id : String
  sessions : ℕ := 0
  best_e1rm : Option ℚ := none
  total_hard_sets : ℕ := 0
  rep_ranges : Option (List (String × ℕ)) := none
deriving Repr, DecidableEq

/-- The keyword set metrics.py passes to every
`ComputeMetricsOutput(...)` construction: status, range, weekly and
per-exercise aggregates, sometimes issues, and the version signature.
The `ComputeMetricsOutput` class models.py declares (lines 247-253)
admits `status` only from `Literal["ok", "error"]`, requires a `user_id`
that metrics.py never passes, and does not declare `issues`; the pydantic
validation of that construction is modelled by
`computeMetricsOutputErrors`/`mkComputeMetricsOutputModel` below. -/
structure MetricsOutputKwargs where
  status : String
  range : DateRange
  weekly : List WeeklyMetrics := []
  exercise_summaries : List ExerciseSummary := []
  issues : List IssueRecord := []
  metrics_version : String
deriving Repr, DecidableEq

/-- `ComputeMetricsInput` exactly as models.py (lines 194-197) declares
it: a required `user_id`, a required `range`, optional options — and no
`sessions` or `logs` field, although metrics.py reads both off its
payload. -/
structure ComputeMetricsInputModel where
  user_id : String
  range : DateRange
  options : Option ComputeMetricsOptions := none
deriving Repr, DecidableEq

/-- The pydantic field validation models.py (lines 247-253) applies when
metrics.py constructs its output, given the `status` kwarg and whether a
`user_id` kwarg was passed: a status outside the ok/error literal and a
missing required user_id each contribute a validation error (pydantic
reports them together in one `ValidationError`); the `issues` kwarg
metrics.py passes is not a declared field and is ignored. -/
def computeMetricsOutputErrors (status : String) (user_id_passed : Bool) : List String :=
  (if status = "ok" ∨ status = "error" then [] else ["status: input should be ok or error"]) ++
  (if user_id_passed then [] else ["user_id: field required"])

/-- Constructing the models.py `ComputeMetricsOutput` from the kwargs
metrics.py passes — which never include `user_id`: a pydantic
`ValidationError` unless every field check passes. -/
def mkComputeMetricsOutputModel (o : MetricsOutputKwargs) :
    Except String MetricsOutputKwargs :=
  match computeMetricsOutputErrors o.status false with
  | [] => .ok o
  | es => .error ("ValidationError: " ++ String.intercalate "; " es)

/-- `_normalize_sessions_from_input` (metrics.py): choose the session
source, filter to dated sessions in range, compute the effective range and
the total set count. -/
def normalize_sessions_from_input (payload : MetricsPayload) :
    List MSession × DateRange × ℕ :=
  let raw : List MSession := if ¬ payload.sessions.isEmpty then payload.sessions
    else payload.logs.foldl (fun acc row => acc ++ row.canonical_sessions) []
  let fr : List MSession × DateRange :=
    match payload.range with
    | some r =>
      (raw.filter (fun s => pyTruthy s.date && in_range (s.date.getD "") r.start r.end_), r)
    | none =>
      let filtered := raw.filter (fun s => pyTruthy s.date)
      if filtered.isEmpty then (filtered, ⟨"1970-01-01", "1970-01-01"⟩)
      else
        let dates := filtered.map (fun s => s.date.getD "")
        (filtered,
          ⟨dates.foldl (fun a b => if pyStrLe b a then b else a) (dates.headD ""),
           dates.foldl (fun a b => if pyStrLe a b then b else a) (dates.headD "")⟩)
  let filtered := fr.1
  let total_sets := (filtered.map (fun s => (s.exercises.map (fun ex => ex.sets.length)).sum)).sum
  (filtered, fr.2, total_sets)

/-- One flattened set tuple of the aggregation pass:
`(weight, unit, reps, set_type, e1rm, load_type, added_weight, added_unit)`. -/
structure FlatSet where
  weight : Option ℚ
  unit : String
  reps : ℤ
  set_type : Option String
  e1 : Option ℚ
  load_type : String
  added_weight : Option ℚ
  added_unit : String
deriving Repr, DecidableEq

/-- `e1rm` with the `ZeroDivisionError` surfaced as an exception. -/
def e1rmE (weight : ℚ) (reps : ℤ) (formula : String) : Except String ℚ :=
  match e1rm weight reps formula with
  | some v => .ok v
  | none => .error "ZeroDivisionError: float division by zero"

/-- Flatten one metrics set dict into a `FlatSet` (the inner loop of the
`sets_by_date_ex` pass). -/
def flattenSet (s : MSet) (formula : String) : Except String FlatSet := do
  let lt0 := pyLower (pyStrip (match pyOr s.load_type none with
    | some v => v
    | none => "weighted"))
  let load_type :=
    if (["weighted", "bodyweight", "bodyweight_plus", "assisted"] : List String).contains lt0
    then lt0 else "weighted"
  let reps := truncToInt (s.reps.getD 0)
  let weight := s.weight
  let unit := match pyOr s.unit none with
    | some u => u
    | none => "lb"
  let (added_weight, added_unit) :=
    match s.added_load with
    | some (v, u) => (some (v.getD 0), match pyOr u none with
        | some uu => uu
        | none => "lb")
    | none => (s.added_weight, match pyOr s.added_weight_unit none with
        | some uu => uu
        | none => "lb")
  let e1 : Option ℚ ←
    if load_type = "bodyweight" then pure none
    else if load_type = "bodyweight_plus" ∧ added_weight ≠ none then do
      pure (some (← e1rmE (added_weight.getD 0) reps formula))
    else
      match weight with
      | some w => do pure (some (← e1rmE (if w = 0 then 0 else w) reps formula))
      | none => pure none
  pure { weight, unit, reps, set_type := s.set_type, e1, load_type, added_weight, added_unit }

/-- The `sets_by_date_ex` accumulation (defaultdict of `"date|ex_id"` →
flattened set list, insertion-ordered). -/
def setsByDateEx (sessions : List MSession) (formula : String) :
    Except String (List (String × List FlatSet)) :=
  sessions.foldlM
    (fun acc sess =>
      if ¬ pyTruthy sess.date then pure acc
      else
        sess.exercises.foldlM
          (fun acc ex =>
            ex.sets.foldlM
              (fun acc s => do
                let fs ← flattenSet s formula
                let key := sess.date.getD "" ++ "|" ++ ex.exercise_id.getD ""
                match dictLookup acc key with
                | some l => pure (dictAssign acc key (l ++ [fs]))
                | none => pure (acc ++ [(key, [fs])]))
              acc)
          acc)
    []

/-- Per-week accumulator (`week_data` entry). -/
structure WeekAcc where
  sessions : List String := []
  hard_sets : ℕ := 0
  tonnage_lb : ℚ := 0
  tonnage_kg : ℚ := 0
  tonnage_excluded_sets : ℕ := 0
  tonnage_unknown_sets : ℕ := 0
deriving Repr, DecidableEq

/-- Per-exercise accumulator (`ex_data` entry). -/
structure ExAcc where
  sessions : List String := []
  best_e1rm : Option ℚ := none
  total_hard_sets : ℕ := 0
  rep_ranges : List (String × ℕ) := []
  best_sets : List (String × ℚ × String × ℤ × Option ℚ) := []
deriving Repr, DecidableEq

/-- Add to a set-of-strings modelled as a dedup list. -/
def setAdd (l : List String) (x : String) : List String :=
  if l.contains x then l else l ++ [x]

/-- Split a key `"date|ex_id"` at the first `|` (`key.split("|", 1)`). -/
def splitKeyOnce (key : String) : String × String :=
  let cs := key.toList
  let before := cs.takeWhile (fun c => c ≠ '|')
  let after := cs.drop (before.length + 1)
  (String.mk before, String.mk after)

/-- The rep-range histogram bucket of a set. -/
def repBucket (reps : ℤ) : String :=
  if reps ≤ 5 then "1-5" else if reps ≤ 8 then "6-8"
  else if reps ≤ 12 then "9-12" else "12+"

/-- The state threaded through the main aggregation loop of
`compute_metrics_impl`: `week_data`, `ex_data` and `e1rm_pr_per_ex` as
insertion-ordered dicts.  (The `best_per_ex_day` and `rep_prs` accumulators
of the source never reach the output and are not modelled.) -/
structure AggState where
  week_data : List (String × WeekAcc) := []
  ex_data : List (String × ExAcc) := []
  e1rm_pr_per_ex : List (String × ℚ) := []
deriving Repr, DecidableEq

/-- Process one flattened set for `(date_str, ex_id, week)`. -/
def aggStep (st : AggState) (date_str ex_id week : String) (fs : FlatSet) : AggState :=
  let w := (dictLookup st.week_data week).getD {}
  let ed := (dictLookup st.ex_data ex_id).getD {}
  let is_hard := is_hard_set fs.set_type
  let w := if is_hard then { w with hard_sets := w.hard_sets + 1 } else w
  let ed := if is_hard then { ed with total_hard_sets := ed.total_hard_sets + 1 } else ed
  let w :=
    if fs.load_type = "bodyweight" then
      { w with tonnage_excluded_sets := w.tonnage_excluded_sets + 1 }
    else if fs.load_type = "bodyweight_plus" ∧ fs.added_weight ≠ none then
      if fs.added_unit = "lb" ∨ fs.added_unit = "" then
        { w with tonnage_lb := w.tonnage_lb + fs.added_weight.getD 0 * (fs.reps : ℚ) }
      else
        { w with tonnage_kg := w.tonnage_kg + fs.added_weight.getD 0 * (fs.reps : ℚ) }
    else if fs.load_type = "weighted" then
      match fs.weight with
      | some wt =>
        if fs.unit = "lb" ∨ fs.unit = "" then
          { w with tonnage_lb := w.tonnage_lb + wt * (fs.reps : ℚ) }
        else
          { w with tonnage_kg := w.tonnage_kg + wt * (fs.reps : ℚ) }
      | none => { w with tonnage_unknown_sets := w.tonnage_unknown_sets + 1 }
    else { w with tonnage_unknown_sets := w.tonnage_unknown_sets + 1 }
  let ed := { ed with sessions := setAdd ed.sessions date_str }
  let ed :=
    match fs.e1 with
    | some v =>
      let improves := match ed.best_e1rm with
        | none => true
        | some b => decide (b < v)
      if v ≠ 0 ∧ improves then { ed with best_e1rm := some v }
      else ed
    | none => ed
  let ed :=
    { ed with rep_ranges :=
        let b := repBucket fs.reps
        dictAssign ed.rep_ranges b ((dictLookup ed.rep_ranges b).getD 0 + 1) }
  let ed :=
    match fs.weight with
    | some wt =>
      { ed with best_sets := ed.best_sets ++ [(date_str, wt, (if fs.unit = "" then "lb" else fs.unit), fs.reps, fs.e1)] }
    | none =>
      if fs.load_type = "bodyweight_plus" ∧ fs.added_weight ≠ none then
        { ed with best_sets := ed.best_sets ++
            [(date_str, fs.added_weight.getD 0, (if fs.added_unit = "" then "lb" else fs.added_unit), fs.reps, fs.e1)] }
      else ed
  let prs :=
    match fs.e1 with
    | some v =>
      if v ≠ 0 ∧ (dictLookup st.e1rm_pr_per_ex ex_id).getD 0 < v then
        dictAssign st.e1rm_pr_per_ex ex_id v
      else st.e1rm_pr_per_ex
    | none => st.e1rm_pr_per_ex
  { week_data := dictAssign (if dictContains st.week_data week then st.week_data else st.week_data ++ [(week, {})]) week w,
    ex_data := dictAssign (if dictContains st.ex_data ex_id then st.ex_data else st.ex_data ++ [(ex_id, {})]) ex_id ed,
    e1rm_pr_per_ex := prs }

/-- The main aggregation loop over `sets_by_date_ex.items()`. -/
def aggregate (byKey : List (String × List FlatSet)) : Except String AggState :=
  byKey.foldlM
    (fun st kv => do
      let (date_str, ex_id) := splitKeyOnce kv.1
      let week ← week_start date_str
      let st :=
        { st with week_data :=
            let wd := if dictContains st.week_data week then st.week_data else st.week_data ++ [(week, {})]
            let w := (dictLookup wd week).getD {}
            dictAssign wd week { w with sessions := setAdd w.sessions date_str } }
      pure (kv.2.foldl (fun st fs => aggStep st date_str ex_id week fs) st))
    {}

/-- A `best_sets` entry rendered as a weekly top set. -/
def bestSetToTop (ex_id : String) (bs : String × ℚ × String × ℤ × Option ℚ) : TopSetRecord :=
  { exercise_id := ex_id, weight := bs.2.1, unit := bs.2.2.1,
    reps := bs.2.2.2.1, e1rm := bs.2.2.2.2, date := bs.1 }

/-- A `best_sets` entry rendered as an `e1rm_pr` record. -/
def bestSetToPR (ex_id : String) (bs : String × ℚ × String × ℤ × Option ℚ) : PRRecord :=
  { exercise_id := ex_id, kind := "e1rm_pr", weight := bs.2.1, unit := bs.2.2.1,
    reps := bs.2.2.2.1, e1rm := bs.2.2.2.2, date := bs.1 }

/-- The top sets of one week (all best-set entries whose date falls in it,
in `ex_data` insertion order). -/
def topSetsForWeek (st : AggState) (week : String) : Except String (List TopSetRecord) :=
  st.ex_data.foldlM
    (fun acc exkv =>
      exkv.2.best_sets.foldlM
        (fun ts bs => do
          let ws ← week_start bs.1
          pure (if ws = week then ts ++ [bestSetToTop exkv.1 bs] else ts))
        acc)
    []

/-- The first best-set entry of one exercise in one week whose e1rm equals
the global per-exercise PR value. -/
def prForWeek (st : AggState) (week ex_id : String) (d : ExAcc) :
    Except String (Option PRRecord) :=
  match dictLookup st.e1rm_pr_per_ex ex_id with
  | none => pure none
  | some prv =>
    d.best_sets.foldlM
      (fun hit bs =>
        match hit with
        | some _ => pure hit
        | none => do
          let ws ← week_start bs.1
          pure (if ws = week ∧ bs.2.2.2.2 = some prv then some (bestSetToPR ex_id bs) else none))
      none

/-- The PR records of one week. -/
def prsForWeek (st : AggState) (week : String) : Except String (List PRRecord) :=
  st.ex_data.foldlM
    (fun acc exkv => do
      match ← prForWeek st week exkv.1 exkv.2 with
      | some pr => pure (acc ++ [pr])
      | none => pure acc)
    []

/-- The accumulator of the weekly output loop: the carried previous
hard-set count / lb tonnage / kg tonnage, and the output so far. -/
structure WeeklyAcc where
  prev_hard : Option ℕ := none
  prev_lb : Option ℚ := none
  prev_kg : Option ℚ := none
  outs : List WeeklyMetrics := []
deriving Repr, DecidableEq

/-- `hard_sets > prev * 1.25` with a positive carried previous value. -/
def spikeNat (prev : Option ℕ) (cur : ℕ) : Bool :=
  match prev with
  | some p => decide (0 < p) && decide ((p : ℚ) * (125/100) < (cur : ℚ))
  | none => false

/-- `tonnage > prev * 1.25` with a positive carried previous value and a
truthy current tonnage. -/
def spikeQ (prev : Option ℚ) (cur : ℚ) : Bool :=
  match prev with
  | some p => decide (0 < p) && decide (cur ≠ 0) && decide (p * (125/100) < cur)
  | none => false

/-- The weekly output loop: volume-spike flags, top sets and PRs. -/
def buildWeekly (st : AggState) (include_prs : Bool) :
    Except String (List WeeklyMetrics) := do
  let sorted_weeks := sortStrings (st.week_data.map (fun p => p.1))
  let out ← sorted_weeks.foldlM
    (fun (acc : WeeklyAcc) week => do
      let prev_hard := acc.prev_hard
      let prev_lb := acc.prev_lb
      let prev_kg := acc.prev_kg
      let outs := acc.outs
      let w := (dictLookup st.week_data week).getD {}
      let flags : List String :=
        (if spikeNat prev_hard w.hard_sets then ["volume_spike"] else []) ++
        (if spikeQ prev_lb w.tonnage_lb then ["volume_spike"] else []) ++
        (if spikeQ prev_kg w.tonnage_kg then ["volume_spike"] else [])
      let prev_hard := some w.hard_sets
      let prev_lb := if w.tonnage_lb ≠ 0 then some w.tonnage_lb else prev_lb
      let prev_kg := if w.tonnage_kg ≠ 0 then some w.tonnage_kg else prev_kg
      let tops ← if include_prs then topSetsForWeek st week else pure []
      let prs ← if include_prs then prsForWeek st week else pure []
      let wm : WeeklyMetrics :=
        { week_start := week, sessions := w.sessions.length, hard_sets := w.hard_sets,
          tonnage_lb := if w.tonnage_lb = 0 then none else some w.tonnage_lb,
          tonnage_kg := if w.tonnage_kg = 0 then none else some w.tonnage_kg,
          tonnage_excluded_sets := w.tonnage_excluded_sets,
          tonnage_unknown_sets := w.tonnage_unknown_sets,
          top_sets := tops, prs := prs, flags }
      pure { prev_hard, prev_lb, prev_kg, outs := outs ++ [wm] })
    {}
  pure out.outs

/-- The sorted per-exercise summaries. -/
def buildSummaries (st : AggState) : List ExerciseSummary :=
  (sortStrings (st.ex_data.map (fun p => p.1))).map
    (fun ex_id =>
      let d := (dictLookup st.ex_data ex_id).getD {}
      { exercise_id := ex_id, sessions := d.sessions.length, best_e1rm := d.best_e1rm,
        total_hard_sets := d.total_hard_sets,
        rep_ranges := if d.rep_ranges.isEmpty then none else some d.rep_ranges })

/-- The value flow of `compute_metrics_impl` (repstack/metrics.py):
guardrails, then the stateless aggregation — producing the kwargs each
return statement passes to the `ComputeMetricsOutput` constructor.  The
result the program actually delivers is `compute_metrics_checked` below,
which applies the models.py validation of that construction. -/
def compute_metrics_impl (payload : MetricsPayload) :
    Except String MetricsOutputKwargs :=
  let opts := payload.options.getD {}
  let formula := opts.e1rm_formula
  let include_prs := opts.include_prs
  let n := normalize_sessions_from_input payload
  let sessions := n.1
  let range_ := n.2.1
  let total_sets := n.2.2
  if sessions.length > MAX_SESSIONS then
    .ok
      { status := "needs_clarification", range := range_, weekly := [], exercise_summaries := [],
        issues :=
          [ { severity := "blocking", type := "payload_too_large", location := "sessions",
              message := "Payload exceeds maximum sessions (" ++ natStr sessions.length
                ++ " > " ++ natStr MAX_SESSIONS ++ ")." } ],
        metrics_version := METRICS_VERSION }
  else if total_sets > MAX_SETS then
    .ok
      { status := "needs_clarification", range := range_, weekly := [], exercise_summaries := [],
        issues :=
          [ { severity := "blocking", type := "payload_too_large", location := "sets",
              message := "Payload exceeds maximum sets (" ++ natStr total_sets
                ++ " > " ++ natStr MAX_SETS ++ ")." } ],
        metrics_version := METRICS_VERSION }
  else if sessions.isEmpty then
    .ok
      { status := "ok", range := range_, weekly := [], exercise_summaries := [],
        metrics_version := METRICS_VERSION }
  else do
    let byKey ← setsByDateEx sessions formula
    let st ← aggregate byKey
    let weekly ← buildWeekly st include_prs
    .ok
      { status := "ok", range := range_, weekly, exercise_summaries := buildSummaries st,
        metrics_version := METRICS_VERSION }

/-- `compute_metrics_impl` as the program behaves against models.py:
every return statement constructs the models.py `ComputeMetricsOutput`
from the computed kwargs.  The validation depends only on the status
kwarg and the user_id kwarg (absent at all four call sites), so it is
equivalently applied once to the computed value. -/
def compute_metrics_checked (payload : MetricsPayload) :
    Except String MetricsOutputKwargs := do
  let o ← compute_metrics_impl payload
  mkComputeMetricsOutputModel o

/-! ## Spec-side definitions (written from the claims, for comparison) -/

/-- A registry entry whose display name matches the (trimmed, lower-cased)
key exactly, as claim C6 words step 3. -/
def displayMatches (kl : String) (e : RegEntry) : Bool :=
  e.display.getD "" ≠ "" && pyLower (pyStrip (e.display.getD "")) == kl

/-- A registry entry one of whose aliases matches the key exactly, as
claim C6 words step 4. -/
def aliasMatches (kl : String) (e : RegEntry) : Bool :=
  e.aliases.any (fun a => a ≠ "" && pyLower (pyStrip a) == kl)

/-- The resolution chain exactly as claim C6 states it, on the
`(exercise_id, strategy, score)` projection: source pack → 1.0, global
alias → 0.95, registry display (first matching entry) → 0.90, registry
alias (first matching entry) → 0.85, else `unmapped:<slug>` → 0.0. -/
def resolveClaimed (raw : String) (source : Option String)
    (pack : String → Option String) (reg : List RegEntry) : String × String × ℚ :=
  let kl := pyLower (pyStrip raw)
  match packLookup source pack kl with
  | some eid => (eid, "source_pack", 1)
  | none =>
    match dictLookup EXERCISE_ALIASES kl with
    | some eid => (eid, "global_alias", 95/100)
    | none =>
      match reg.find? (displayMatches kl) with
      | some e => (e.exercise_id, "registry_display", 90/100)
      | none =>
        match reg.find? (aliasMatches kl) with
        | some e => (e.exercise_id, "registry_alias", 85/100)
        | none => ("unmapped:" ++ slug_exercise raw, "unmapped", 0)

/-- A well-formed registry: no two entries share a (normalized) display
key, so "the registry display table" is unambiguous. -/
def DistinctDisplayKeys (reg : List RegEntry) : Prop :=
  (reg.filterMap displayKeyOf).Nodup

/-- The confidence formula as claim C2 states it: 1.0 minus the table
penalty for each returned issue whose type is penalized, rounded to two
decimals and clamped to `[0.25, 1.0]`. -/
def confClaimed (issues : List IssueRecord) : ℚ :=
  max (25/100) (min 1 (round2
    (1 - (issues.map (fun i => (dictLookup CONFIDENCE_PENALTY i.type).getD 0)).sum)))

/-- The concrete pipeline output used to witness the confidence policy:
one empty session with an ISO date, no issues, confidence 1. -/
def emptySessionRunOut : IngestLogOutput :=
  { status := "needs_clarification", user_id := "req_u", log_id := none,
    canonical_log :=
      ⟨[{ session_id := "sess_abcdefgh", date := some "2025-01-15", exercises := [] }]⟩,
    issues := [],
    summary := { sessions_detected := 1, confidence := 1 },
    parser_version := "1.0.0", meta_llm_available := false, meta_llm_used := false }

/-- The canonical log used to witness the set-index invariant: one session
with one unmapped exercise of two bodyweight sets. -/
def setIndexWitnessLog : CanonicalLog :=
  ⟨[{ session_id := "sess_abcdefgh", date := some "2025-01-15",
      exercises :=
        [{ exercise_raw := "ZZZ", exercise_id := "unmapped:zzz", exercise_display := "ZZZ",
           mapping := some ⟨"unmapped", 0⟩,
           sets :=
             [ { set_index := 1, reps := 5, load_type := "bodyweight" },
               { set_index := 2, reps := 3, load_type := "bodyweight" } ] }] }]⟩

/-- The issues emitted while building `setIndexWitnessLog`. -/
def setIndexWitnessIssues : List IssueRecord :=
  [ { severity := "warning", type := "unmapped_exercise",
      location := "sessions[0].exercises[0]",
      message := "Exercise not in mapping dictionary; stored as unmapped:zzz. Add an exact synonym if this is a known lift.",
      raw_excerpt := some "ZZZ" } ]

/-- The canonical log used to witness the autofill behaviour: one dateless
session filled from the hint. -/
def autofillWitnessLog : CanonicalLog :=
  ⟨[{ session_id := "sess_abcdefgh", date := some "2025-01-15", exercises := [] }]⟩

/-- The issues emitted while building `autofillWitnessLog`. -/
def autofillWitnessIssues : List IssueRecord :=
  [ { severity := "warning", type := "missing_date_autofilled",
      location := "session_0",
      message := "Session date was missing; used session_date_hint." } ]

/-- A small concrete registry used to exercise the resolver chain. -/
def demoReg : List RegEntry :=
  [ { exercise_id := "ex_rdlx", display := some "Romanian Deadlift Variant X",
      aliases := ["RDL-X"] },
    { exercise_id := "ex_zz", display := some "Zercher Zquat",
      aliases := ["ZZ Lift", "RDL-X"] } ]

/-- The weight-cell classifier exactly as claim C7 words it: a leading plus
sign makes the set bodyweight_plus with the numeric remainder (the cell
after the leading plus) as added weight; a cell that fits none of the
stated classes marks the row for dropping. -/
def parseWeightClaimed (val : Option String) : Option ℚ × String × Option ℚ :=
  match val with
  | none => (some 0, "weighted", none)
  | some raw =>
    if raw = "" then (some 0, "weighted", none)
    else
      let v := pyStrip raw
      if (["bodyweight", "bw", "-", "—"] : List String).contains (pyLower v) then
        (none, "bodyweight", none)
      else if startsWithChar v '+' then
        match pythonFloat (pyStrip (String.mk v.toList.tail)) with
        | some added => (none, "bodyweight_plus", some added)
        | none => (none, "weighted", none)
      else if v = "" then (some 0, "weighted", none)
      else
        match pythonFloat v with
        | some w => (some w, "weighted", none)
        | none => (none, "weighted", none)

/-- The weight-cell classifier as the amended claim words it: a cell that
starts with a plus sign makes the set bodyweight_plus with added weight
parsed from the cell after removing every plus sign (an empty remainder
counting as 0); blank cells are weighted 0; the bodyweight literals give a
null weight; anything else must parse as a float or the row is dropped. -/
def parseWeightAmended (val : Option String) : Option ℚ × String × Option ℚ :=
  match val with
  | none => (some 0, "weighted", none)
  | some raw =>
    if raw = "" then (some 0, "weighted", none)
    else
      let v := pyStrip raw
      if (["bodyweight", "bw", "-", "—"] : List String).contains (pyLower v) then
        (none, "bodyweight", none)
      else if startsWithChar v '+' then
        let rem := pyStrip (String.mk (v.toList.filter (fun c => c ≠ '+')))
        if rem = "" then (none, "bodyweight_plus", some 0)
        else
          match pythonFloat rem with
          | some added => (none, "bodyweight_plus", some added)
          | none => (none, "weighted", none)
      else if v = "" then (some 0, "weighted", none)
      else
        match pythonFloat v with
        | some w => (some w, "weighted", none)
        | none => (none, "weighted", none)

/-- A session record with its per-run random session id blanked: the view
of a built session that does not depend on the uuid4 draw. -/
def stripSess (s : SessionRecord) : SessionRecord :=
  { s with session_id := "" }

/-- The uuid-independent view of an ingestion output: everything except
the generated user_id, log_id and per-session session_id values. -/
def ingestUuidFreeView (o : IngestLogOutput) :
    String × List SessionRecord × List IssueRecord × IngestSummary × String × Bool × Bool :=
  (o.status, o.canonical_log.sessions.map stripSess, o.issues, o.summary,
   o.parser_version, o.meta_llm_available, o.meta_llm_used)

/-! ## Theorems -/

theorem bind_ok_eq {ε α β : Type} (a : α) (f : α → Except ε β) :
    (Except.ok a >>= f) = f a := rfl

theorem bind_err_eq {ε α β : Type} (e : ε) (f : α → Except ε β) :
    (Except.error e >>= f : Except ε β) = .error e := rfl

theorem except_map_ok {ε α β : Type} (f : α → β) (x : α) :
    Except.map f (.ok x : Except ε α) = .ok (f x) := rfl

/-- Evaluation of the pipeline tail on one dated empty session (shared by
several witnesses below). -/
theorem emptySessionRun_eval :
    ingest_after_parse [(some "2025-01-15", [])] [] {} {} none (fun _ => none) []
      "u" "l" (fun _ => "abcdefgh") false false = .ok emptySessionRunOut := by
  have hbuild : build_canonical_log [(some "2025-01-15", [])] "lb" none none
      (fun _ => none) [] (fun _ => "abcdefgh") =
      .ok (⟨[{ session_id := "sess_abcdefgh", date := some "2025-01-15",
               exercises := [] }]⟩, []) := by
    simp +decide [build_canonical_log, buildSessions, normalize_session, normExercises,
      normalize_date, isIsoShaped, pyStrip, dropLeadingWs, pyTruthy, pyTake,
      unmappedIssuesOf, natStr, bind_ok_eq, except_map_ok, Except.map]
  have hc1 : compute_confidence [] = 1 := by
    norm_num [compute_confidence, round2, roundHalfEven, CONFIDENCE_FLOOR]
  unfold ingest_after_parse
  rw [if_neg (by decide)]
  simp +decide [hbuild, bind_ok_eq, hc1, emptySessionRunOut, pyTruthy, pyTake,
    CONFIDENCE_THRESHOLD, PARSER_VERSION]

theorem confidence_foldl (issues : List IssueRecord) (c : ℚ) :
    issues.foldl
      (fun c i =>
        match dictLookup CONFIDENCE_PENALTY i.type with
        | some p => c - p
        | none => c)
      c
    = c - (issues.map (fun i => (dictLookup CONFIDENCE_PENALTY i.type).getD 0)).sum := by
  induction issues generalizing c with
  | nil => simp
  | cons i is ih =>
    simp only [List.foldl_cons, List.map_cons, List.sum_cons, ih]
    cases h : dictLookup CONFIDENCE_PENALTY i.type <;> simp [h] <;> ring

theorem compute_confidence_eq_claimed (issues : List IssueRecord) :
    compute_confidence issues = confClaimed issues := by
  simp [compute_confidence, confClaimed, confidence_foldl, CONFIDENCE_FLOOR]

theorem compute_confidence_bounds (issues : List IssueRecord) :
    CONFIDENCE_FLOOR ≤ compute_confidence issues ∧ compute_confidence issues ≤ 1 := by
  unfold compute_confidence
  refine ⟨le_max_left _ _, max_le ?_ (min_le_left _ _)⟩
  norm_num [CONFIDENCE_FLOOR]

/-- Claim C2 (counterexample): an invocation whose parsing fails (here: an
empty CSV) reports summary confidence `0.0`, while the claimed penalty
formula over the returned issues (one unpenalized `parse_error`) gives
`1.0` — and `0.0` also violates the claimed `0.25 ≤ confidence` bound. -/
theorem confidence_claim_counterexample :
    (ingestCSV "" {} none none (fun _ => none) [] "u" "l" (fun _ => "s") false).map
      (fun o => (o.summary.confidence, confClaimed o.issues)) = .ok (0, 1) := by
  have hconf : confClaimed
      [ { severity := "blocking", type := "parse_error", location := "csv",
          message := "CSV could not be parsed or required columns (exercise, weight, reps) missing.",
          raw_excerpt := none } ] = 1 := by
    simp +decide [confClaimed, CONFIDENCE_PENALTY, dictLookup, List.find?]
    norm_num [round2, roundHalfEven]
  simp +decide [ingestCSV, parse_csv, splitLines, pyStrip, dropLeadingWs, splitOnChar,
    ingest_after_parse, pyTruthy, pyTake, hconf, bind_ok_eq, Except.map, except_map_ok]

/-- Claim C2 (amended): for every invocation that reaches canonicalization
(parsing produced sessions, or produced neither sessions nor issues), the
reported confidence lies in `[0.25, 1.0]`; and outside strict mode it
equals exactly the claimed formula — 1.0 minus the table penalty per
returned issue, rounded to two decimals, clamped to `[0.25, 1.0]`.  (In
strict mode the escalation appends a blocking `missing_date` duplicate
*after* the confidence was computed, so the returned issue list counts
that type once more than the formula did; and an invocation that aborts
before canonicalization reports confidence `0.0`.) -/
theorem confidence_policy_amended
    (rs : List (Option String × List (String × List RawSet)))
    (issues0 : List IssueRecord) (options : IngestOptions) (user : UserInput)
    (source_app : Option String) (pack : String → Option String) (reg : List RegEntry)
    (fu fl : String) (fs : ℕ → String) (la lu : Bool) (out : IngestLogOutput)
    (hne : ¬ (rs.isEmpty ∧ ¬ issues0.isEmpty))
    (hok : ingest_after_parse rs issues0 options user source_app pack reg fu fl fs la lu = .ok out) :
    (CONFIDENCE_FLOOR ≤ out.summary.confidence ∧ out.summary.confidence ≤ 1) ∧
    (options.strictness ≠ "strict" → out.summary.confidence = confClaimed out.issues) := by
  unfold ingest_after_parse at hok
  rw [if_neg hne] at hok
  cases hbc : build_canonical_log rs user.default_unit options.session_date_hint source_app pack reg fs with
  | error e => rw [hbc, bind_err_eq] at hok; exact absurd hok (by simp)
  | ok bc =>
    rw [hbc, bind_ok_eq] at hok
    simp only [Except.ok.injEq] at hok
    subst hok
    constructor
    · exact compute_confidence_bounds (issues0 ++ bc.2)
    · intro hstrict
      have : ¬ (options.strictness = "strict" ∧
          (issues0 ++ bc.2).any (fun i => i.type == "missing_date")) := by
        intro h
        exact hstrict h.1
      simp only [if_neg this]
      exact compute_confidence_eq_claimed (issues0 ++ bc.2)

/-- Witness for `confidence_policy_amended` at a concrete input. -/
theorem confidence_policy_witness :
    (¬ (([(some "2025-01-15", [])] : List (Option String × List (String × List RawSet))).isEmpty ∧
        ¬ ([] : List IssueRecord).isEmpty)) ∧
    ((CONFIDENCE_FLOOR ≤ (emptySessionRunOut).summary.confidence ∧
      (emptySessionRunOut).summary.confidence ≤ 1) ∧
     (({} : IngestOptions).strictness ≠ "strict" →
      (emptySessionRunOut).summary.confidence = confClaimed (emptySessionRunOut).issues)) :=
  ⟨by decide,
   confidence_policy_amended [(some "2025-01-15", [])] [] {} {} none (fun _ => none) []
     "u" "l" (fun _ => "abcdefgh") false false emptySessionRunOut (by decide)
     emptySessionRun_eval⟩

theorem round2_zero : round2 0 = 0 := by
  norm_num [round2, roundHalfEven]

/-- Claim C4 (counterexample): as stated, the claim fails on the code at two
concrete inputs.  `e1rm(0.125, 1, epley)` returns `round(0.125, 2) = 0.12`,
not exactly the weight `0.125`; and `e1rm(100, 37, brzycki)` raises
`ZeroDivisionError` (modelled `none`) instead of returning a number. -/
theorem e1rm_claim_counterexample :
    e1rm (1/8) 1 "epley" ≠ some (e1rmClaimed (1/8) 1 "epley") ∧
    e1rm 100 37 "brzycki" ≠ some (e1rmClaimed 100 37 "brzycki") := by
  constructor
  · have h8 : round2 (1/8) = 3/25 := by
      norm_num [round2, roundHalfEven]
    have hne : ¬("epley" : String) = "brzycki" := by decide
    simp only [e1rm, e1rmClaimed, e1rm_epley, if_neg hne]
    norm_num [h8]
  · have heq : ("brzycki" : String) = "brzycki" := rfl
    simp [e1rm, e1rmClaimed, e1rm_brzycki, heq]

/-- Claim C4 (amended): for either formula, `e1rm(w, r, formula)` equals `0`
when `r ≤ 0`, `round(w, 2)` when `r = 1`, and otherwise the formula value
rounded to two decimals — provided that for Brzycki `r ≠ 37` (there the code
raises `ZeroDivisionError`). -/
theorem e1rm_piecewise_amended (w : ℚ) (r : ℤ) (f : String)
    (hf : f = "epley" ∨ f = "brzycki") (h37 : f = "brzycki" → r ≠ 37) :
    e1rm w r f = some (e1rmAmended w r f) := by
  rcases hf with hf | hf <;> subst hf
  · have hne : ¬("epley" : String) = "brzycki" := by decide
    by_cases h0 : r ≤ 0
    · simp [e1rm, e1rmAmended, e1rm_epley, hne, h0, round2_zero]
    · by_cases h1 : r = 1
      · simp [e1rm, e1rmAmended, e1rm_epley, hne, h0, h1]
      · simp [e1rm, e1rmAmended, e1rm_epley, hne, h0, h1]
  · have h37' : r ≠ 37 := h37 rfl
    by_cases h0 : r ≤ 0
    · simp [e1rm, e1rmAmended, e1rm_brzycki, h0, round2_zero]
    · by_cases h1 : r = 1
      · simp [e1rm, e1rmAmended, e1rm_brzycki, h0, h1]
      · simp [e1rm, e1rmAmended, e1rm_brzycki, h0, h1, h37']

/-- Witness for `e1rm_piecewise_amended` at a concrete input. -/
theorem e1rm_piecewise_witness :
    e1rm 100 5 "brzycki" = some (e1rmAmended 100 5 "brzycki") :=
  e1rm_piecewise_amended 100 5 "brzycki" (Or.inr rfl) (fun _ => by decide)

/-- Claim C3: for every invocation in which parsing produced at least one
session, the final status is `needs_clarification` iff a blocking issue
exists, or zero exercises were detected, or zero sets were detected, or the
computed confidence is below 0.70; otherwise it is `ok`. -/
theorem status_rule
    (rs : List (Option String × List (String × List RawSet)))
    (issues0 : List IssueRecord) (options : IngestOptions) (user : UserInput)
    (source_app : Option String) (pack : String → Option String) (reg : List RegEntry)
    (fu fl : String) (fs : ℕ → String) (la lu : Bool) (out : IngestLogOutput)
    (hrs : ¬ rs.isEmpty)
    (hok : ingest_after_parse rs issues0 options user source_app pack reg fu fl fs la lu = .ok out) :
    (out.status = "needs_clarification" ∨ out.status = "ok") ∧
    (out.status = "needs_clarification" ↔
      out.issues.any (fun i => i.severity == "blocking") = true ∨
      out.summary.exercises_detected = 0 ∨ out.summary.sets_detected = 0 ∨
      out.summary.confidence < 70/100) := by
  unfold ingest_after_parse at hok
  rw [if_neg (fun h => hrs h.1)] at hok
  cases hbc : build_canonical_log rs user.default_unit options.session_date_hint source_app pack reg fs with
  | error e => rw [hbc, bind_err_eq] at hok; exact absurd hok (by simp)
  | ok bc =>
    rw [hbc, bind_ok_eq] at hok
    simp only [Except.ok.injEq] at hok
    subst hok
    constructor
    · dsimp only
      split_ifs <;> simp
    · dsimp only
      simp only [CONFIDENCE_THRESHOLD]
      split_ifs
      all_goals
        first
        | (apply iff_of_true rfl; assumption)
        | (apply iff_of_false (by decide); assumption)

/-- Witness for `status_rule` at a concrete input (one dated session with
no exercises: zero exercises detected, status `needs_clarification`). -/
theorem status_rule_witness :
    (¬ ([(some "2025-01-15", [])] : List (Option String × List (String × List RawSet))).isEmpty) ∧
    ((emptySessionRunOut.status = "needs_clarification" ∨ emptySessionRunOut.status = "ok") ∧
     (emptySessionRunOut.status = "needs_clarification" ↔
       emptySessionRunOut.issues.any (fun i => i.severity == "blocking") = true ∨
       emptySessionRunOut.summary.exercises_detected = 0 ∨
       emptySessionRunOut.summary.sets_detected = 0 ∨
       emptySessionRunOut.summary.confidence < 70/100)) :=
  ⟨by decide,
   status_rule [(some "2025-01-15", [])] [] {} {} none (fun _ => none) []
     "u" "l" (fun _ => "abcdefgh") false false emptySessionRunOut (by decide)
     emptySessionRun_eval⟩

/-- The guardrail control flow of the metrics.py value computation.  If
the in-range session count exceeds 500, or (otherwise) the total set
count exceeds 10,000, the computed output kwargs carry status
`needs_clarification` with a single blocking `payload_too_large` issue
and empty weekly/per-exercise outputs; at or below both caps the kwargs
never include a `payload_too_large` issue (the issues kwarg is empty).
This is the behavior metrics.py attempts; `metrics_models_mismatch`
records that the models.py output model rejects every such construction. -/
theorem metrics_guardrails (payload : MetricsPayload) :
    ((normalize_sessions_from_input payload).1.length > MAX_SESSIONS →
      compute_metrics_impl payload = .ok
        { status := "needs_clarification", range := (normalize_sessions_from_input payload).2.1,
          weekly := [], exercise_summaries := [],
          issues :=
            [ { severity := "blocking", type := "payload_too_large", location := "sessions",
                message := "Payload exceeds maximum sessions ("
                  ++ natStr (normalize_sessions_from_input payload).1.length
                  ++ " > " ++ natStr MAX_SESSIONS ++ ")." } ],
          metrics_version := METRICS_VERSION }) ∧
    ((normalize_sessions_from_input payload).1.length ≤ MAX_SESSIONS →
      (normalize_sessions_from_input payload).2.2 > MAX_SETS →
      compute_metrics_impl payload = .ok
        { status := "needs_clarification", range := (normalize_sessions_from_input payload).2.1,
          weekly := [], exercise_summaries := [],
          issues :=
            [ { severity := "blocking", type := "payload_too_large", location := "sets",
                message := "Payload exceeds maximum sets ("
                  ++ natStr (normalize_sessions_from_input payload).2.2
                  ++ " > " ++ natStr MAX_SETS ++ ")." } ],
          metrics_version := METRICS_VERSION }) ∧
    ((normalize_sessions_from_input payload).1.length ≤ MAX_SESSIONS →
      (normalize_sessions_from_input payload).2.2 ≤ MAX_SETS →
      ∀ out, compute_metrics_impl payload = .ok out → out.issues = []) := by
  refine ⟨?_, ?_, ?_⟩
  · intro h
    unfold compute_metrics_impl
    rw [if_pos h]
  · intro hle h
    unfold compute_metrics_impl
    rw [if_neg (by omega), if_pos h]
  · intro hle1 hle2 out hok
    unfold compute_metrics_impl at hok
    rw [if_neg (by omega), if_neg (by omega)] at hok
    by_cases hemp : (normalize_sessions_from_input payload).1.isEmpty
    · rw [if_pos hemp] at hok
      simp only [Except.ok.injEq] at hok
      subst hok
      rfl
    · rw [if_neg hemp] at hok
      cases h1 : setsByDateEx (normalize_sessions_from_input payload).1
          (payload.options.getD {}).e1rm_formula with
      | error e => rw [h1, bind_err_eq] at hok; exact absurd hok (by simp)
      | ok byKey =>
        rw [h1, bind_ok_eq] at hok
        cases h2 : aggregate byKey with
        | error e => rw [h2, bind_err_eq] at hok; exact absurd hok (by simp)
        | ok st =>
          rw [h2, bind_ok_eq] at hok
          cases h3 : buildWeekly st (payload.options.getD {}).include_prs with
          | error e => rw [h3, bind_err_eq] at hok; exact absurd hok (by simp)
          | ok weekly =>
            rw [h3, bind_ok_eq] at hok
            simp only [Except.ok.injEq] at hok
            subst hok
            rfl

set_option maxRecDepth 100000 in
/-- Concrete instance of `metrics_guardrails`: 501 dated sessions trip
the session cap; the empty payload stays below both caps, no issues. -/
theorem metrics_guardrails_witness :
    (normalize_sessions_from_input
        { sessions := List.replicate 501 { date := some "2025-01-06" },
          range := some { start := "2025-01-01", end_ := "2025-01-31" } }).1.length > MAX_SESSIONS ∧
    compute_metrics_impl
        { sessions := List.replicate 501 { date := some "2025-01-06" },
          range := some { start := "2025-01-01", end_ := "2025-01-31" } } = .ok
      { status := "needs_clarification",
        range := (normalize_sessions_from_input
          { sessions := List.replicate 501 { date := some "2025-01-06" },
            range := some { start := "2025-01-01", end_ := "2025-01-31" } }).2.1,
        weekly := [], exercise_summaries := [],
        issues :=
          [ { severity := "blocking", type := "payload_too_large", location := "sessions",
              message := "Payload exceeds maximum sessions ("
                ++ natStr (normalize_sessions_from_input
                    { sessions := List.replicate 501 { date := some "2025-01-06" },
                      range := some { start := "2025-01-01", end_ := "2025-01-31" } }).1.length
                ++ " > " ++ natStr MAX_SESSIONS ++ ")." } ],
        metrics_version := METRICS_VERSION } ∧
    (∀ out, compute_metrics_impl ({} : MetricsPayload) = .ok out → out.issues = []) :=
  ⟨by decide,
   (metrics_guardrails
     { sessions := List.replicate 501 { date := some "2025-01-06" },
       range := some { start := "2025-01-01", end_ := "2025-01-31" } }).1 (by decide),
   (metrics_guardrails {}).2.2 (by decide) (by decide)⟩

/-- Evaluation of `build_canonical_log` on the set-index witness input. -/
theorem setIndexWitness_eval :
    build_canonical_log
        [(some "2025-01-15", [("ZZZ", [{ load_type := some "bodyweight", reps := some (some 5) },
                                       { load_type := some "bodyweight", reps := some (some 3) }])])]
        "lb" none none (fun _ => none) [] (fun _ => "abcdefgh") =
      .ok (setIndexWitnessLog, setIndexWitnessIssues) := by
  simp +decide [build_canonical_log, buildSessions, normalize_session, normExercises,
    normalize_exercise, normSets, normalize_set, mkSetRecord, resolve_exercise,
    packLookup, dictLookup, EXERCISE_ALIASES, slug_exercise, subDashWsRuns, isWordChar,
    isDashOrWs, buildRegistryMaps, suggest_exercises_for_unmapped,
    normalize_date, isIsoShaped, pyStrip, pyLower, dropLeadingWs, pyTruthy, pyTake, pyInt,
    unmappedIssuesOf, strStartsWith, natStr, bind_ok_eq, except_map_ok, Except.map,
    setIndexWitnessLog, setIndexWitnessIssues, List.find?]

theorem mkSetRecord_ok_eq {x t : SetRecord} (h : mkSetRecord x = .ok t) : t = x := by
  unfold mkSetRecord at h
  split_ifs at h <;> simp_all

theorem normalize_set_index (r : RawSet) (idx : ℤ) (du : String) (s : SetRecord)
    (h : normalize_set r idx du = .ok s) : s.set_index = idx := by
  unfold normalize_set at h
  cases hr : pyInt (r.reps.getD (some 0)) with
  | error e => rw [hr, bind_err_eq] at h; exact absurd h (by simp)
  | ok reps =>
    rw [hr, bind_ok_eq] at h
    dsimp only at h
    split_ifs at h <;> rw [mkSetRecord_ok_eq h]

theorem normSets_index (raws : List RawSet) (i : ℕ) (du : String)
    (sets : List SetRecord) (h : normSets raws i du = .ok sets) :
    ∀ k (hk : k < sets.length), (sets.get ⟨k, hk⟩).set_index = (i : ℤ) + (k : ℤ) + 1 := by
  induction raws generalizing i sets with
  | nil =>
    intro k hk
    unfold normSets at h
    simp only [Except.ok.injEq] at h
    subst h
    exact absurd hk (by simp)
  | cons r rest ih =>
    intro k hk
    unfold normSets at h
    cases h1 : normalize_set r ((i : ℤ) + 1) du with
    | error e => rw [h1, bind_err_eq] at h; exact absurd h (by simp)
    | ok s0 =>
      rw [h1, bind_ok_eq] at h
      cases h2 : normSets rest (i + 1) du with
      | error e => rw [h2, bind_err_eq] at h; exact absurd h (by simp)
      | ok tl =>
        rw [h2, bind_ok_eq] at h
        simp only [Except.ok.injEq] at h
        subst h
        match k with
        | 0 =>
          simpa using normalize_set_index r ((i : ℤ) + 1) du s0 h1
        | Nat.succ k' =>
          have hk' : k' < tl.length := by simpa using hk
          have := ih (i + 1) tl h2 k' hk'
          simp only [List.get_cons_succ] at *
          rw [this]
          push_cast
          ring

theorem normalize_exercise_index (name : String) (raws : List RawSet) (du : String)
    (src : Option String) (pack : String → Option String) (reg : List RegEntry)
    (ex : ExerciseRecord) (h : normalize_exercise name raws du src pack reg = .ok ex) :
    ∀ k (hk : k < ex.sets.length), (ex.sets.get ⟨k, hk⟩).set_index = (k : ℤ) + 1 := by
  unfold normalize_exercise at h
  cases h1 : normSets raws 0 du with
  | error e => rw [h1, bind_err_eq] at h; exact absurd h (by simp)
  | ok sets =>
    rw [h1, bind_ok_eq] at h
    simp only [Except.ok.injEq] at h
    subst h
    intro k hk
    simpa using normSets_index raws 0 du sets h1 k (by simpa using hk)

theorem normExercises_index (raws : List (String × List RawSet)) (du : String)
    (src : Option String) (pack : String → Option String) (reg : List RegEntry)
    (exs : List ExerciseRecord) (h : normExercises raws du src pack reg = .ok exs) :
    ∀ ex ∈ exs, ∀ k (hk : k < ex.sets.length), (ex.sets.get ⟨k, hk⟩).set_index = (k : ℤ) + 1 := by
  induction raws generalizing exs with
  | nil =>
    unfold normExercises at h
    simp only [Except.ok.injEq] at h
    subst h
    intro ex hex
    exact absurd hex (by simp)
  | cons p rest ih =>
    unfold normExercises at h
    cases h1 : normalize_exercise p.1 p.2 du src pack reg with
    | error e => rw [h1, bind_err_eq] at h; exact absurd h (by simp)
    | ok ex0 =>
      rw [h1, bind_ok_eq] at h
      cases h2 : normExercises rest du src pack reg with
      | error e => rw [h2, bind_err_eq] at h; exact absurd h (by simp)
      | ok tl =>
        rw [h2, bind_ok_eq] at h
        simp only [Except.ok.injEq] at h
        subst h
        intro ex hex
        rcases List.mem_cons.mp hex with hex | hex
        · subst hex
          exact normalize_exercise_index p.1 p.2 du src pack reg ex h1
        · exact ih tl h2 ex hex

theorem buildSessions_index (rs : List (Option String × List (String × List RawSet)))
    (i : ℕ) (du : String) (hint : Option String) (src : Option String)
    (pack : String → Option String) (reg : List RegEntry) (freshSess : ℕ → String)
    (sessions : List SessionRecord) (issues : List IssueRecord)
    (h : buildSessions rs i du hint src pack reg freshSess = .ok (sessions, issues)) :
    ∀ sess ∈ sessions, ∀ ex ∈ sess.exercises, ∀ k (hk : k < ex.sets.length),
      (ex.sets.get ⟨k, hk⟩).set_index = (k : ℤ) + 1 := by
  induction rs generalizing i sessions issues with
  | nil =>
    unfold buildSessions at h
    simp only [Except.ok.injEq, Prod.mk.injEq] at h
    intro sess hs
    rw [← h.1] at hs
    exact absurd hs (by simp)
  | cons p rest ih =>
    unfold buildSessions at h
    dsimp only at h
    cases h1 : normalize_session ("sess_" ++ pyTake (freshSess i) 8)
        (if pyTruthy p.1 then normalize_date p.1 hint else hint) p.2 du src pack reg with
    | error e => rw [h1, bind_err_eq] at h; exact absurd h (by simp)
    | ok sess0 =>
      rw [h1, bind_ok_eq] at h
      cases h2 : buildSessions rest (i + 1) du hint src pack reg freshSess with
      | error e => rw [h2, bind_err_eq] at h; exact absurd h (by simp)
      | ok tl =>
        rw [h2, bind_ok_eq] at h
        simp only [Except.ok.injEq, Prod.mk.injEq] at h
        intro sess hs
        rw [← h.1] at hs
        rcases List.mem_cons.mp hs with hs | hs
        · subst hs
          unfold normalize_session at h1
          cases h3 : normExercises p.2 du src pack reg with
          | error e => rw [h3, bind_err_eq] at h1; exact absurd h1 (by simp)
          | ok exs =>
            rw [h3, bind_ok_eq] at h1
            simp only [Except.ok.injEq] at h1
            subst h1
            intro ex hex
            exact normExercises_index p.2 du src pack reg exs h3 ex hex
        · exact ih (i + 1) tl.1 tl.2 (by rw [h2]) sess hs

/-- Claim C10: in every canonical log built by `build_canonical_log`, the
`set_index` values within each exercise are exactly 1, 2, ..., n in list
order — 1-based, consecutive and gap-free, equal to the position of each
set in the set list of its exercise. -/
theorem set_index_invariant (rs : List (Option String × List (String × List RawSet)))
    (du : String) (hint : Option String) (src : Option String)
    (pack : String → Option String) (reg : List RegEntry) (freshSess : ℕ → String)
    (log : CanonicalLog) (issues : List IssueRecord)
    (h : build_canonical_log rs du hint src pack reg freshSess = .ok (log, issues)) :
    ∀ sess ∈ log.sessions, ∀ ex ∈ sess.exercises, ∀ k (hk : k < ex.sets.length),
      (ex.sets.get ⟨k, hk⟩).set_index = (k : ℤ) + 1 := by
  unfold build_canonical_log at h
  cases hb : buildSessions rs 0 du hint src pack reg freshSess with
  | error e => rw [hb] at h; exact absurd h (by simp [Except.map])
  | ok p =>
    rw [hb] at h
    simp only [Except.map, Except.ok.injEq] at h
    cases h
    exact buildSessions_index rs 0 du hint src pack reg freshSess p.1 p.2 (by rw [hb]) 

/-- Witness for `set_index_invariant` at a concrete input: one session,
one exercise with two bodyweight sets, indices 1 and 2. -/
theorem set_index_invariant_witness :
    build_canonical_log
        [(some "2025-01-15", [("ZZZ", [{ load_type := some "bodyweight", reps := some (some 5) },
                                       { load_type := some "bodyweight", reps := some (some 3) }])])]
        "lb" none none (fun _ => none) [] (fun _ => "abcdefgh") = .ok (setIndexWitnessLog, setIndexWitnessIssues) ∧
    (∀ sess ∈ setIndexWitnessLog.sessions, ∀ ex ∈ sess.exercises, ∀ k (hk : k < ex.sets.length),
      (ex.sets.get ⟨k, hk⟩).set_index = (k : ℤ) + 1) :=
  ⟨setIndexWitness_eval,
   set_index_invariant
     [(some "2025-01-15", [("ZZZ", [{ load_type := some "bodyweight", reps := some (some 5) },
                                    { load_type := some "bodyweight", reps := some (some 3) }])])]
     "lb" none none (fun _ => none) [] (fun _ => "abcdefgh")
     setIndexWitnessLog setIndexWitnessIssues setIndexWitness_eval⟩

theorem except_pure_eq {ε α : Type} (a : α) : (pure a : Except ε α) = .ok a := rfl

/-- Evaluation of `build_canonical_log` on the autofill witness input. -/
theorem autofillWitness_eval :
    build_canonical_log [(none, [])] "lb" (some "2025-01-15") none (fun _ => none) []
        (fun _ => "abcdefgh") = .ok (autofillWitnessLog, autofillWitnessIssues) := by
  simp +decide [build_canonical_log, buildSessions, normalize_session, normExercises,
    normalize_date, isIsoShaped, pyStrip, dropLeadingWs, pyTruthy, pyTake,
    unmappedIssuesOf, natStr, bind_ok_eq, except_map_ok, Except.map,
    autofillWitnessLog, autofillWitnessIssues]

theorem normalize_session_date (sid : String) (date : Option String)
    (raws : List (String × List RawSet)) (du : String) (src : Option String)
    (pack : String → Option String) (reg : List RegEntry) (sess : SessionRecord)
    (h : normalize_session sid date raws du src pack reg = .ok sess) : sess.date = date := by
  unfold normalize_session at h
  cases h1 : normExercises raws du src pack reg with
  | error e => rw [h1, bind_err_eq] at h; exact absurd h (by simp)
  | ok exs =>
    rw [h1, bind_ok_eq] at h
    simp only [Except.ok.injEq] at h
    subst h
    rfl

theorem buildSessions_autofill (rs : List (Option String × List (String × List RawSet)))
    (i : ℕ) (du : String) (hint : Option String) (src : Option String)
    (pack : String → Option String) (reg : List RegEntry) (freshSess : ℕ → String)
    (sessions : List SessionRecord) (issues : List IssueRecord)
    (h : buildSessions rs i du hint src pack reg freshSess = .ok (sessions, issues)) :
    ∀ k (hk : k < rs.length), ¬ pyTruthy (rs.get ⟨k, hk⟩).1 → pyTruthy hint →
      (∃ hk2 : k < sessions.length, (sessions.get ⟨k, hk2⟩).date = hint) ∧
      issues.any (fun i2 => i2.type == "missing_date_autofilled" &&
        i2.location == ("session_" ++ natStr (i + k))) = true := by
  induction rs generalizing i sessions issues with
  | nil =>
    intro k hk
    exact absurd hk (by simp)
  | cons p rest ih =>
    unfold buildSessions at h
    dsimp only at h
    cases h1 : normalize_session ("sess_" ++ pyTake (freshSess i) 8)
        (if pyTruthy p.1 then normalize_date p.1 hint else hint) p.2 du src pack reg with
    | error e => rw [h1, bind_err_eq] at h; exact absurd h (by simp)
    | ok sess0 =>
      rw [h1, bind_ok_eq] at h
      cases h2 : buildSessions rest (i + 1) du hint src pack reg freshSess with
      | error e => rw [h2, bind_err_eq] at h; exact absurd h (by simp)
      | ok tl =>
        rw [h2, bind_ok_eq] at h
        simp only [Except.ok.injEq, Prod.mk.injEq] at h
        obtain ⟨hses, hiss⟩ := h
        subst hses
        subst hiss
        intro k hk hdate hhint
        match k with
        | 0 =>
          have hdate0 : ¬ pyTruthy p.1 = true := by simpa using hdate
          have hnd : (if pyTruthy p.1 then normalize_date p.1 hint else hint) = hint :=
            if_neg (by simpa using hdate0)
          have hsd : sess0.date = hint := by
            have h1x := h1
            rw [hnd] at h1x
            exact normalize_session_date _ _ _ _ _ _ _ _ h1x
          refine ⟨⟨by simp, by simpa using hsd⟩, ?_⟩
          rw [hnd]
          rw [if_neg (by simpa using hhint), if_pos ⟨by simpa using hdate0, by simpa using hhint⟩]
          simp
        | Nat.succ k2 =>
          have hk2 : k2 < rest.length := by simpa using hk
          have hrec := ih (i + 1) tl.1 tl.2 (by rw [h2]) k2 hk2 (by simpa using hdate) hhint
          refine ⟨⟨by simpa using hrec.1.1, ?_⟩, ?_⟩
          · have hdd := hrec.1.2
            simpa using hdd
          · have harith : i + 1 + k2 = i + Nat.succ k2 := by omega
            rw [harith] at hrec
            have h2any := hrec.2
            simp only [List.any_append, h2any, Bool.or_true]

/-- Claim C9 (amended): when the session-date slot reaching the canonical
builder is absent or blank while the caller-supplied hint is a non-empty
date, `build_canonical_log` fills the session date from the hint and emits
a `missing_date_autofilled` warning for that session.  (Through the
pipeline this can only happen on the LLM path: the CSV/JSON/text branches
substitute the hint into the parsed tuples before the builder runs, so
their sessions get the date filled without any warning.) -/
theorem autofill_on_build (rs : List (Option String × List (String × List RawSet)))
    (du : String) (hint : Option String) (src : Option String)
    (pack : String → Option String) (reg : List RegEntry) (freshSess : ℕ → String)
    (log : CanonicalLog) (issues : List IssueRecord)
    (h : build_canonical_log rs du hint src pack reg freshSess = .ok (log, issues)) :
    ∀ k (hk : k < rs.length), ¬ pyTruthy (rs.get ⟨k, hk⟩).1 → pyTruthy hint →
      (∃ hk2 : k < log.sessions.length, (log.sessions.get ⟨k, hk2⟩).date = hint) ∧
      issues.any (fun i2 => i2.type == "missing_date_autofilled" &&
        i2.location == ("session_" ++ natStr k)) = true := by
  unfold build_canonical_log at h
  cases hb : buildSessions rs 0 du hint src pack reg freshSess with
  | error e => rw [hb] at h; exact absurd h (by simp [Except.map])
  | ok p =>
    rw [hb] at h
    simp only [Except.map, Except.ok.injEq] at h
    cases h
    intro k hk hdate hhint
    simpa using buildSessions_autofill rs 0 du hint src pack reg freshSess p.1 p.2
      (by rw [hb]) k hk hdate hhint

/-- Witness for `autofill_on_build` at a concrete input: a dateless session
with a hint gets the hint as date plus the warning. -/
theorem autofill_on_build_witness :
    build_canonical_log [(none, [])] "lb" (some "2025-01-15") none (fun _ => none) []
        (fun _ => "abcdefgh") = .ok (autofillWitnessLog, autofillWitnessIssues) ∧
    ((∃ hk2 : 0 < autofillWitnessLog.sessions.length,
        (autofillWitnessLog.sessions.get ⟨0, hk2⟩).date = some "2025-01-15") ∧
     autofillWitnessIssues.any (fun i2 => i2.type == "missing_date_autofilled" &&
        i2.location == ("session_" ++ natStr 0)) = true) :=
  ⟨autofillWitness_eval,
   autofill_on_build [(none, [])] "lb" (some "2025-01-15") none (fun _ => none) []
     (fun _ => "abcdefgh") autofillWitnessLog autofillWitnessIssues autofillWitness_eval
     0 (by decide) (by decide) (by decide)⟩

/-- Claim C9 (counterexample): a CSV ingestion with no date column and a
supplied hint fills the session date from the hint but emits no
`missing_date_autofilled` issue — the claim as stated (per-row date absent
+ hint present ⇒ warning) fails on the pipeline. -/
theorem autofill_claim_counterexample :
    (ingestCSV "exercise,weight,reps\nSquat,135,5" {}
        (some { session_date_hint := some "2025-01-15" }) none (fun _ => none) []
        "u" "l" (fun _ => "abcdefgh") false).map
      (fun o => (o.canonical_log.sessions.map (fun s => s.date),
                 o.issues.any (fun i2 => i2.type == "missing_date_autofilled"))) =
      .ok ([some "2025-01-15"], false) := by
  simp +decide [ingestCSV, parse_csv, splitLines, splitOnChar, csvRowDict, rawGet,
    colMapFind, parseCsvRow, parse_weight, groupContiguous, groupByDate, appendToBlocks,
    dictAssign, dictSetdefault, dictContains, dictLookup, List.find?, List.foldlM,
    pythonIntViaFloat, pythonFloat, parseSign, parseMantissa, parseExponent, takeDigitsU,
    digitsVal, isDigitChar, truncToInt, startsWithChar, strContains,
    ingest_after_parse, build_canonical_log, buildSessions, normalize_session,
    normExercises, normalize_exercise, normSets, normalize_set, mkSetRecord,
    resolve_exercise, packLookup, EXERCISE_ALIASES, normalize_unit, normalize_date,
    isIsoShaped, buildRegistryMaps, unmappedIssuesOf, strStartsWith, natStr,
    pyStrip, pyLower, dropLeadingWs, pyTruthy, pyOr, pyTake, pyInt,
    bind_ok_eq, bind_err_eq, except_pure_eq, except_map_ok, Except.map]

theorem dictLookup_assign_self {α : Type} (m : List (String × α)) (k : String) (v : α) :
    dictLookup (dictAssign m k v) k = some v := by
  induction m with
  | nil => simp [dictAssign, dictLookup]
  | cons p t ih =>
    by_cases h : p.1 = k
    · simp [dictAssign, dictLookup, h]
    · simp [dictAssign, dictLookup, h, ih]

theorem dictLookup_assign_ne {α : Type} (m : List (String × α)) (k k2 : String) (v : α)
    (h : k ≠ k2) : dictLookup (dictAssign m k2 v) k = dictLookup m k := by
  have h2k : k2 ≠ k := Ne.symm h
  induction m with
  | nil => simp [dictAssign, dictLookup, h2k]
  | cons p t ih =>
    by_cases h1 : p.1 = k2
    · by_cases hpk : p.1 = k
      · exact absurd (h1 ▸ hpk) h2k
      · simp [dictAssign, dictLookup, h1, hpk, h2k]
    · by_cases hpk : p.1 = k <;> simp [dictAssign, dictLookup, h1, hpk, h, h2k, ih]

theorem dictContains_assign {α : Type} (m : List (String × α)) (k k2 : String) (v : α) :
    dictContains (dictAssign m k2 v) k = ((k2 == k) || dictContains m k) := by
  induction m with
  | nil => simp [dictAssign, dictContains]
  | cons p t ih =>
    by_cases h1 : p.1 = k2
    · by_cases hpk : p.1 = k <;> simp_all [dictAssign, dictContains]
    · by_cases hpk : p.1 = k
      · have hkk2 : k ≠ k2 := fun hh => h1 (hpk.trans hh)
        simp [dictAssign, dictContains, h1, hpk, hkk2]
      · simp only [dictAssign, dictContains, if_neg (by simpa using h1), ih]
        cases hb : (k2 == k) <;> cases ha : ((p.1 : String) == k) <;>
          simp_all [dictContains]

theorem dictLookup_setdefault_self {α : Type} (m : List (String × α)) (k : String) (v : α) :
    dictLookup (dictSetdefault m k v) k =
      (match dictLookup m k with
       | some w => some w
       | none => some v) := by
  induction m with
  | nil => simp [dictSetdefault, dictLookup]
  | cons p t ih =>
    by_cases h : p.1 = k
    · simp [dictSetdefault, dictLookup, h]
    · simp [dictSetdefault, dictLookup, h, ih]

theorem dictLookup_setdefault_ne {α : Type} (m : List (String × α)) (k k2 : String) (v : α)
    (h : k ≠ k2) : dictLookup (dictSetdefault m k2 v) k = dictLookup m k := by
  have h2k : k2 ≠ k := Ne.symm h
  induction m with
  | nil => simp [dictSetdefault, dictLookup, h2k]
  | cons p t ih =>
    by_cases h1 : p.1 = k2
    · by_cases hpk : p.1 = k
      · exact absurd (h1 ▸ hpk) h2k
      · simp [dictSetdefault, dictLookup, h1, hpk]
    · by_cases hpk : p.1 = k <;> simp [dictSetdefault, dictLookup, h1, hpk, h, h2k, ih]

theorem dictContains_eq_isSome {α : Type} (m : List (String × α)) (k : String) :
    dictContains m k = (dictLookup m k).isSome := by
  induction m with
  | nil => simp [dictContains, dictLookup]
  | cons p t ih =>
    by_cases h : p.1 = k <;> simp [dictContains, dictLookup, h, ih]

theorem bm_dm_mono (rest : List RegEntry) (dm am : List (String × RegEntry)) (k : String)
    (h : dictContains dm k = true) :
    dictContains (buildRegistryMapsFrom dm am rest).1 k = true := by
  induction rest generalizing dm am with
  | nil => exact h
  | cons e rest ih =>
    unfold buildRegistryMapsFrom
    cases hd : displayKeyOf e with
    | none => exact ih dm _ h
    | some k2 =>
      refine ih _ _ ?_
      rw [dictContains_assign]
      simp [h]

theorem bm_display_stable (rest : List RegEntry) (dm am : List (String × RegEntry))
    (k : String) (v : RegEntry) (h : dictLookup dm k = some v)
    (hrest : ∀ e2 ∈ rest, ¬ displayKeyOf e2 = some k) :
    dictLookup (buildRegistryMapsFrom dm am rest).1 k = some v := by
  induction rest generalizing dm am with
  | nil => exact h
  | cons e rest ih =>
    unfold buildRegistryMapsFrom
    cases hd : displayKeyOf e with
    | none => exact ih dm _ h (fun e2 he2 => hrest e2 (by simp [he2]))
    | some k2 =>
      have hne : k ≠ k2 := by
        intro hkk
        exact hrest e (by simp) (by rw [hd, hkk])
      refine ih _ _ ?_ (fun e2 he2 => hrest e2 (by simp [he2]))
      rw [dictLookup_assign_ne _ _ _ _ hne]
      exact h

theorem bm_display_lookup (rest : List RegEntry) (dm am : List (String × RegEntry))
    (k : String) (h0 : ¬ dictContains dm k = true)
    (hnd : (rest.filterMap displayKeyOf).Nodup) :
    dictLookup (buildRegistryMapsFrom dm am rest).1 k =
      (rest.find? (fun e => displayKeyOf e == some k)).map (fun e => e) := by
  induction rest generalizing dm am with
  | nil =>
    unfold buildRegistryMapsFrom
    simp only [List.find?]
    rw [dictContains_eq_isSome] at h0
    cases hl : dictLookup dm k
    · rfl
    · rw [hl] at h0; simp at h0
  | cons e rest ih =>
    unfold buildRegistryMapsFrom
    by_cases hmatch : displayKeyOf e = some k
    · have hfind : (e :: rest).find? (fun e2 => displayKeyOf e2 == some k) = some e := by
        simp [List.find?, hmatch]
      rw [hfind]
      simp only [hmatch]
      have hk_not_rest : ∀ e2 ∈ rest, ¬ displayKeyOf e2 = some k := by
        intro e2 he2 hk2
        have hmem : k ∈ rest.filterMap displayKeyOf := List.mem_filterMap.mpr ⟨e2, he2, hk2⟩
        simp only [List.filterMap_cons, hmatch] at hnd
        exact (List.nodup_cons.mp hnd).1 hmem
      exact bm_display_stable rest _ _ k e (dictLookup_assign_self dm k e) hk_not_rest
    · have hb : (displayKeyOf e == some k) = false := by
        simp [hmatch]
      have hfind : (e :: rest).find? (fun e2 => displayKeyOf e2 == some k) =
          rest.find? (fun e2 => displayKeyOf e2 == some k) := by
        rw [List.find?]
        simp [hb]
      rw [hfind]
      cases hd : displayKeyOf e with
      | none =>
        refine ih dm _ h0 ?_
        rw [List.filterMap_cons_none hd] at hnd
        exact hnd
      | some k2 =>
        have hne : k2 ≠ k := by
          intro hkk
          exact hmatch (by rw [hd, hkk])
        refine ih _ _ ?_ ?_
        · rw [dictContains_assign]
          simpa [hne] using h0
        · rw [List.filterMap_cons_some hd] at hnd
          exact (List.nodup_cons.mp hnd).2

theorem addAliases_lookup (as2 : List String) (am : List (String × RegEntry))
    (dm2 : List (String × RegEntry)) (e : RegEntry) (k : String)
    (hk : ¬ dictContains dm2 k = true) :
    dictLookup
      (as2.foldl
        (fun am a =>
          if a ≠ "" && ¬ dictContains dm2 (pyLower (pyStrip a)) then
            dictSetdefault am (pyLower (pyStrip a)) e
          else am)
        am) k =
      (match dictLookup am k with
       | some v => some v
       | none =>
         if as2.any (fun a => a ≠ "" && pyLower (pyStrip a) == k) then some e else none) := by
  induction as2 generalizing am with
  | nil =>
    simp only [List.foldl_nil, List.any_nil]
    cases dictLookup am k <;> simp
  | cons a as2 ih =>
    simp only [List.foldl_cons, List.any_cons]
    by_cases hak : pyLower (pyStrip a) = k
    · by_cases ha : a = ""
      · subst ha
        rw [if_neg (by simp)]
        rw [ih am]
        simp
      · have hcond : (a ≠ "" && ¬ dictContains dm2 (pyLower (pyStrip a))) = true := by
          rw [hak]
          simp [ha, hk]
        rw [if_pos hcond, ih]
        simp only [hak]
        rw [dictLookup_setdefault_self]
        cases hl : dictLookup am k with
        | none => simp [ha]
        | some v => simp
    · have hpred : (a ≠ "" && pyLower (pyStrip a) == k) = false := by
        simp [hak]
      by_cases hcond : (a ≠ "" && ¬ dictContains dm2 (pyLower (pyStrip a))) = true
      · rw [if_pos hcond, ih]
        rw [dictLookup_setdefault_ne _ _ _ _ (fun hh => hak hh.symm)]
        cases hl : dictLookup am k <;> simp [hpred, hak]
      · rw [if_neg hcond, ih]
        cases hl : dictLookup am k <;> simp [hpred, hak]

theorem bm_alias_lookup (rest : List RegEntry) (dm am : List (String × RegEntry))
    (k : String)
    (hfin : ¬ dictContains (buildRegistryMapsFrom dm am rest).1 k = true) :
    dictLookup (buildRegistryMapsFrom dm am rest).2 k =
      (match dictLookup am k with
       | some v => some v
       | none => rest.find? (aliasMatches k)) := by
  induction rest generalizing dm am with
  | nil =>
    unfold buildRegistryMapsFrom
    simp only [List.find?]
    cases dictLookup am k <;> rfl
  | cons e rest ih =>
    unfold buildRegistryMapsFrom at hfin ⊢
    have hdm2 : ¬ dictContains
        (match displayKeyOf e with
         | some k2 => dictAssign dm k2 e
         | none => dm) k = true := by
      intro hc
      exact hfin (bm_dm_mono rest _ _ k hc)
    rw [ih _ _ hfin]
    rw [addAliases, addAliases_lookup e.aliases am _ e k hdm2]
    cases hl : dictLookup am k with
    | some v => rfl
    | none =>
      simp only [List.find?]
      cases hm : aliasMatches k e with
      | true =>
        have hany : (e.aliases.any fun a => a ≠ "" && pyLower (pyStrip a) == k) = true := hm
        rw [hany]
        simp
      | false =>
        have hany : (e.aliases.any fun a => a ≠ "" && pyLower (pyStrip a) == k) = false := hm
        rw [hany]
        simp

theorem displayMatches_eq_beq (kl : String) :
    (fun e => displayKeyOf e == some kl) = displayMatches kl := by
  funext e
  cases hd : e.display with
  | none => simp [displayKeyOf, displayMatches, hd]
  | some d =>
    by_cases h : d = ""
    · simp [displayKeyOf, displayMatches, hd, h]
    · simp [displayKeyOf, displayMatches, hd, h]

theorem mem_subDashWsRuns_aux : ∀ (n : ℕ) (l : List Char), l.length ≤ n →
    ∀ c ∈ subDashWsRuns l, c = '_' ∨ (c ∈ l ∧ isDashOrWs c = false) := by
  intro n
  induction n with
  | zero =>
    intro l hl c hc
    cases l with
    | nil => simp [subDashWsRuns] at hc
    | cons x rest => simp at hl
  | succ n ih =>
    intro l hl c hc
    cases l with
    | nil => simp [subDashWsRuns] at hc
    | cons x rest =>
      rw [subDashWsRuns] at hc
      by_cases hx : isDashOrWs x = true
      · rw [if_pos hx] at hc
        rcases List.mem_cons.mp hc with h1 | h1
        · exact Or.inl h1
        · have hlen : (rest.dropWhile isDashOrWs).length ≤ n := by
            have := length_dropWhile_le isDashOrWs rest
            simp only [List.length_cons] at hl
            omega
          rcases ih _ hlen c h1 with h2 | ⟨h2, h3⟩
          · exact Or.inl h2
          · exact Or.inr ⟨List.mem_cons_of_mem _ ((List.dropWhile_sublist _).subset h2), h3⟩
      · rw [if_neg hx] at hc
        rcases List.mem_cons.mp hc with h1 | h1
        · subst h1
          exact Or.inr ⟨List.mem_cons_self _ _, by simpa using hx⟩
        · have hlen : rest.length ≤ n := by
            simp only [List.length_cons] at hl
            omega
          rcases ih rest hlen c h1 with h2 | ⟨h2, h3⟩
          · exact Or.inl h2
          · exact Or.inr ⟨List.mem_cons_of_mem _ h2, h3⟩

theorem mem_subDashWsRuns (l : List Char) (c : Char) (hc : c ∈ subDashWsRuns l) :
    c = '_' ∨ (c ∈ l ∧ isDashOrWs c = false) :=
  mem_subDashWsRuns_aux l.length l le_rfl c hc

theorem slug_exercise_chars (raw : String) :
    ∀ c ∈ (slug_exercise raw).toList, c.isAlphanum ∨ c = '_' := by
  intro c hc
  simp only [slug_exercise] at hc
  split at hc
  · have hall : ∀ c ∈ "unknown".toList, c.isAlphanum ∨ c = '_' := by decide
    exact hall c hc
  · rcases mem_subDashWsRuns _ c hc with h | ⟨hmem, hnd⟩
    · exact Or.inr h
    · have hp := (List.mem_filter.mp hmem).2
      simp only [isWordChar, isDashOrWs, Bool.or_eq_true, Bool.or_eq_false_iff,
        decide_eq_true_eq, decide_eq_false_iff_not] at hp hnd
      rcases hp with ((hp | hp) | hp) | hp
      · exact Or.inl hp
      · exact Or.inr hp
      · simp [hnd.2] at hp
      · exact absurd hp hnd.1

theorem slug_exercise_empty : slug_exercise "" = "unknown" := by
  simp [slug_exercise, pyStrip, pyLower, dropLeadingWs, subDashWsRuns]

theorem resolve_eq_claimed (raw : String) (source : Option String)
    (pack : String → Option String) (reg : List RegEntry)
    (h : DistinctDisplayKeys reg) :
    ((resolve_exercise raw source pack reg).1,
     (resolve_exercise raw source pack reg).2.2.1,
     (resolve_exercise raw source pack reg).2.2.2) =
      resolveClaimed raw source pack reg := by
  simp only [resolve_exercise, resolveClaimed]
  cases hp : packLookup source pack (pyLower (pyStrip raw)) with
  | some eid =>
    cases hf : reg.find? (fun ent => ent.exercise_id == eid) <;> simp [hf]
  | none =>
    cases hg : dictLookup EXERCISE_ALIASES (pyLower (pyStrip raw)) with
    | some eid => simp
    | none =>
      have h0 : ¬ dictContains ([] : List (String × RegEntry)) (pyLower (pyStrip raw)) = true := by
        simp [dictContains]
      have hdisp := bm_display_lookup reg [] [] (pyLower (pyStrip raw)) h0 h
      rw [displayMatches_eq_beq] at hdisp
      cases hfd : reg.find? (displayMatches (pyLower (pyStrip raw))) with
      | some ent =>
        rw [hfd] at hdisp
        simp only [Option.map_some'] at hdisp
        simp only [buildRegistryMaps] at hdisp ⊢
        rw [hdisp]
        norm_num
      | none =>
        rw [hfd] at hdisp
        simp only [Option.map_none'] at hdisp
        simp only [buildRegistryMaps] at hdisp ⊢
        have hfin : ¬ dictContains (buildRegistryMapsFrom [] [] reg).1
            (pyLower (pyStrip raw)) = true := by
          rw [dictContains_eq_isSome, hdisp]
          simp
        have halias := bm_alias_lookup reg [] [] (pyLower (pyStrip raw)) hfin
        simp only [dictLookup] at halias
        rw [hdisp, halias]
        cases hfa : reg.find? (aliasMatches (pyLower (pyStrip raw))) <;> simp

/-- C6: resolve_exercise follows the claimed strict precedence chain with
exact trimmed case-insensitive matching on the (exercise_id, strategy,
score) projection — source pack (score 1.0) → global alias (0.95) →
registry display (0.90) → registry alias (0.85) → unmapped slug (0.0) —
provided no two registry entries share a normalized display key; and the
slug consists of alphanumerics and underscores only, defaulting to
"unknown" on an empty name. -/
theorem resolver_precedence_chain :
    (∀ (raw : String) (source : Option String) (pack : String → Option String)
        (reg : List RegEntry), DistinctDisplayKeys reg →
        ((resolve_exercise raw source pack reg).1,
         (resolve_exercise raw source pack reg).2.2.1,
         (resolve_exercise raw source pack reg).2.2.2) =
          resolveClaimed raw source pack reg) ∧
    (∀ (raw : String), ∀ c ∈ (slug_exercise raw).toList, c.isAlphanum ∨ c = '_') ∧
    slug_exercise "" = "unknown" :=
  ⟨resolve_eq_claimed, slug_exercise_chars, slug_exercise_empty⟩

theorem resolver_precedence_chain_witness :
    DistinctDisplayKeys demoReg ∧
    ((resolve_exercise "RDL-X" none (fun _ => none) demoReg).1,
     (resolve_exercise "RDL-X" none (fun _ => none) demoReg).2.2.1,
     (resolve_exercise "RDL-X" none (fun _ => none) demoReg).2.2.2) =
      resolveClaimed "RDL-X" none (fun _ => none) demoReg :=
  ⟨by unfold DistinctDisplayKeys; decide,
   resolver_precedence_chain.1 "RDL-X" none (fun _ => none) demoReg
     (by unfold DistinctDisplayKeys; decide)⟩

/-- The weight cell "+2+5" as the code classifies it (all plus signs
removed) versus as claim C7 words it (numeric remainder after the leading
plus, which fails to parse and drops the row). -/
theorem weight_cell_claim_counterexample :
    parse_weight (some "+2+5") = (none, "bodyweight_plus", some 25) ∧
    parseWeightClaimed (some "+2+5") = (none, "weighted", none) := by
  constructor
  · simp +decide [parse_weight, pyStrip, pyLower, dropLeadingWs, startsWithChar,
      pythonFloat, parseSign, parseMantissa, parseExponent, takeDigitsU, digitsVal,
      isDigitChar]
  · simp +decide [parseWeightClaimed, pyStrip, pyLower, dropLeadingWs, startsWithChar,
      pythonFloat, parseSign, parseMantissa, parseExponent, takeDigitsU, digitsVal,
      isDigitChar]

theorem parse_weight_eq_amended : parse_weight = parseWeightAmended := by
  funext val
  cases val with
  | none => rfl
  | some raw =>
    simp only [parse_weight, parseWeightAmended]
    by_cases h1 : raw = ""
    · rw [if_pos h1, if_pos h1]
    · rw [if_neg h1, if_neg h1]
      by_cases h2 : ((["bodyweight", "bw", "-", "—"] : List String).contains
          (pyLower (pyStrip raw)) = true)
      · rw [if_pos h2, if_pos h2]
      · rw [if_neg h2, if_neg h2]
        by_cases h3 : (startsWithChar (pyStrip raw) '+' = true)
        · rw [if_pos h3, if_pos h3]
          by_cases h4 : pyStrip (String.mk ((pyStrip raw).toList.filter (fun c => c ≠ '+'))) = ""
          · rw [if_pos h4, if_pos h4]
          · rw [if_neg h4, if_neg h4]
        · rw [if_neg h3, if_neg h3]
          by_cases h4 : pyStrip raw = ""
          · rw [if_pos h4, if_pos h4]
          · rw [if_neg h4, if_neg h4]

theorem parseCsvRow_weight_drop (row : List (String × Option String))
    (ex_col weight_col reps_col : String)
    (unit_col rpe_col set_type_col date_col : Option String)
    (hw1 : (parse_weight (rawGet row weight_col)).1 = none)
    (hw2 : (parse_weight (rawGet row weight_col)).2.1 = "weighted") :
    parseCsvRow row ex_col weight_col reps_col unit_col rpe_col set_type_col date_col =
      .ok none := by
  rcases hp : parse_weight (rawGet row weight_col) with ⟨w, lt, ad⟩
  rw [hp] at hw1 hw2
  simp only at hw1 hw2
  subst hw1
  subst hw2
  by_cases hex : pyStrip ((rawGet row ex_col).getD "") = ""
  · simp [parseCsvRow, hex, except_pure_eq, bind_ok_eq]
  · cases hg : rawGet row reps_col with
    | none => simp [parseCsvRow, hex, hg, except_pure_eq, bind_ok_eq]
    | some s =>
      cases hi : pythonIntViaFloat s with
      | none => simp [parseCsvRow, hex, hg, hi, except_pure_eq, bind_ok_eq]
      | some reps => simp [parseCsvRow, hex, hg, hi, hp, except_pure_eq, bind_ok_eq]

theorem parseCsvRow_reps_drop (row : List (String × Option String))
    (ex_col weight_col reps_col : String)
    (unit_col rpe_col set_type_col date_col : Option String)
    (hr : (match rawGet row reps_col with
           | none => none
           | some s => pythonIntViaFloat s : Option ℤ) = none) :
    parseCsvRow row ex_col weight_col reps_col unit_col rpe_col set_type_col date_col =
      .ok none := by
  by_cases hex : pyStrip ((rawGet row ex_col).getD "") = ""
  · simp [parseCsvRow, hex, except_pure_eq, bind_ok_eq]
  · cases hg : rawGet row reps_col with
    | none => simp [parseCsvRow, hex, hg, except_pure_eq, bind_ok_eq]
    | some s =>
      rw [hg] at hr
      simp only at hr
      simp [parseCsvRow, hex, hg, hr, except_pure_eq, bind_ok_eq]

/-- C7 (amended): the CSV weight-cell policy — empty or blank cells are
weighted with value 0, the bodyweight literals give load_type bodyweight
with null weight, a cell starting with a plus sign is bodyweight_plus with
added weight parsed after removing every plus sign (empty remainder
counting as 0), any other cell must parse as a float or the row is
dropped; a row is also dropped when its reps cell does not survive the
float-then-truncate integer cast. -/
theorem weight_cell_policy_amended :
    parse_weight = parseWeightAmended ∧
    (∀ (row : List (String × Option String)) (ex_col weight_col reps_col : String)
        (unit_col rpe_col set_type_col date_col : Option String),
      (parse_weight (rawGet row weight_col)).1 = none ∧
      (parse_weight (rawGet row weight_col)).2.1 = "weighted" →
      parseCsvRow row ex_col weight_col reps_col unit_col rpe_col set_type_col date_col =
        .ok none) ∧
    (∀ (row : List (String × Option String)) (ex_col weight_col reps_col : String)
        (unit_col rpe_col set_type_col date_col : Option String),
      (match rawGet row reps_col with
       | none => none
       | some s => pythonIntViaFloat s : Option ℤ) = none →
      parseCsvRow row ex_col weight_col reps_col unit_col rpe_col set_type_col date_col =
        .ok none) :=
  ⟨parse_weight_eq_amended,
   fun row a b c d e f g h => parseCsvRow_weight_drop row a b c d e f g h.1 h.2,
   fun row a b c d e f g h => parseCsvRow_reps_drop row a b c d e f g h⟩

theorem weight_cell_policy_witness :
    ((parse_weight (rawGet [("exercise", some "Squat"), ("weight", some "abc"),
        ("reps", some "5")] "weight")).1 = none ∧
     (parse_weight (rawGet [("exercise", some "Squat"), ("weight", some "abc"),
        ("reps", some "5")] "weight")).2.1 = "weighted") ∧
    parseCsvRow [("exercise", some "Squat"), ("weight", some "abc"), ("reps", some "5")]
      "exercise" "weight" "reps" none none none none = .ok none := by
  have h : (parse_weight (rawGet [("exercise", some "Squat"), ("weight", some "abc"),
      ("reps", some "5")] "weight")).1 = none ∧
      (parse_weight (rawGet [("exercise", some "Squat"), ("weight", some "abc"),
        ("reps", some "5")] "weight")).2.1 = "weighted" := by decide
  exact ⟨h, weight_cell_policy_amended.2.1 _ "exercise" "weight" "reps" none none none none h⟩

theorem map_strip_congr {α : Type} (l1 l2 : List SessionRecord)
    (h : l1.map stripSess = l2.map stripSess) (g : SessionRecord → α)
    (hg : ∀ s, g (stripSess s) = g s) : l1.map g = l2.map g := by
  have e1 : (l1.map stripSess).map g = l1.map g := by
    rw [List.map_map]
    exact List.map_congr_left (fun s _ => hg s)
  have e2 : (l2.map stripSess).map g = l2.map g := by
    rw [List.map_map]
    exact List.map_congr_left (fun s _ => hg s)
  rw [← e1, ← e2, h]

theorem buildSessions_strip (rs : List (Option String × List (String × List RawSet)))
    (i : ℕ) (du : String) (hint : Option String) (src : Option String)
    (pack : String → Option String) (reg : List RegEntry) (fs1 fs2 : ℕ → String) :
    (buildSessions rs i du hint src pack reg fs1).map (fun p => (p.1.map stripSess, p.2)) =
    (buildSessions rs i du hint src pack reg fs2).map (fun p => (p.1.map stripSess, p.2)) := by
  induction rs generalizing i with
  | nil => rfl
  | cons hd rest ih =>
    obtain ⟨date_str, exercises⟩ := hd
    simp only [buildSessions, normalize_session]
    cases hne : normExercises exercises du src pack reg with
    | error e => rfl
    | ok exs =>
      simp only [bind_ok_eq, bind_err_eq, except_pure_eq]
      have htl := ih (i + 1)
      cases h1 : buildSessions rest (i + 1) du hint src pack reg fs1 with
      | error e =>
        rw [h1] at htl
        cases h2 : buildSessions rest (i + 1) du hint src pack reg fs2 with
        | error e2 =>
          rw [h2] at htl
          simp only [Except.map] at htl
          injection htl with he
          subst he
          rfl
        | ok p2 =>
          rw [h2] at htl
          simp only [Except.map] at htl
          exact absurd htl (by simp)
      | ok p1 =>
        rw [h1] at htl
        cases h2 : buildSessions rest (i + 1) du hint src pack reg fs2 with
        | error e2 =>
          rw [h2] at htl
          simp only [Except.map] at htl
          exact absurd htl (by simp)
        | ok p2 =>
          rw [h2] at htl
          simp only [Except.map, Except.ok.injEq, Prod.mk.injEq] at htl
          obtain ⟨hs, hi⟩ := htl
          simp only [bind_ok_eq, Except.map, List.map_cons]
          rw [hs, hi]
          rfl

theorem ingest_after_parse_strip
    (raw_sessions : List (Option String × List (String × List RawSet)))
    (issues0 : List IssueRecord) (options : IngestOptions) (user : UserInput)
    (source_app : Option String) (pack : String → Option String) (reg : List RegEntry)
    (fu1 fl1 : String) (fs1 : ℕ → String) (fu2 fl2 : String) (fs2 : ℕ → String)
    (la lu : Bool) :
    (ingest_after_parse raw_sessions issues0 options user source_app pack reg
        fu1 fl1 fs1 la lu).map ingestUuidFreeView =
    (ingest_after_parse raw_sessions issues0 options user source_app pack reg
        fu2 fl2 fs2 la lu).map ingestUuidFreeView := by
  simp only [ingest_after_parse, build_canonical_log]
  by_cases hc : (raw_sessions.isEmpty = true ∧ ¬ issues0.isEmpty = true)
  · rw [if_pos hc, if_pos hc]
    rfl
  · rw [if_neg hc, if_neg hc]
    have hbc := buildSessions_strip raw_sessions 0 user.default_unit
      options.session_date_hint source_app pack reg fs1 fs2
    cases h1 : buildSessions raw_sessions 0 user.default_unit options.session_date_hint
        source_app pack reg fs1 with
    | error e =>
      rw [h1] at hbc
      cases h2 : buildSessions raw_sessions 0 user.default_unit options.session_date_hint
          source_app pack reg fs2 with
      | error e2 =>
        rw [h2] at hbc
        simp only [Except.map] at hbc
        injection hbc with he
        subst he
        rfl
      | ok p2 =>
        rw [h2] at hbc
        simp only [Except.map] at hbc
        exact absurd hbc (by simp)
    | ok p1 =>
      rw [h1] at hbc
      cases h2 : buildSessions raw_sessions 0 user.default_unit options.session_date_hint
          source_app pack reg fs2 with
      | error e2 =>
        rw [h2] at hbc
        simp only [Except.map] at hbc
        exact absurd hbc (by simp)
      | ok p2 =>
        rw [h2] at hbc
        simp only [Except.map, Except.ok.injEq, Prod.mk.injEq] at hbc
        obtain ⟨hs, hi⟩ := hbc
        have hlen : p1.1.length = p2.1.length := by
          have := congrArg List.length hs
          simpa using this
        have hexr : p1.1.map (fun s => s.exercises.length) =
            p2.1.map (fun s => s.exercises.length) :=
          map_strip_congr _ _ hs _ (fun s => rfl)
        have hsets : p1.1.map (fun s => (s.exercises.map (fun ex => ex.sets.length)).sum) =
            p2.1.map (fun s => (s.exercises.map (fun ex => ex.sets.length)).sum) :=
          map_strip_congr _ _ hs _ (fun s => rfl)
        have hunm : p1.1.map
              (fun s => (s.exercises.filter (fun ex => strStartsWith ex.exercise_id "unmapped:")).length) =
            p2.1.map
              (fun s => (s.exercises.filter (fun ex => strStartsWith ex.exercise_id "unmapped:")).length) :=
          map_strip_congr _ _ hs _ (fun s => rfl)
        simp only [Except.map, bind_ok_eq, except_pure_eq, ingestUuidFreeView]
        rw [hi, hs, hexr, hsets, hunm, hlen]

/-- C1 (amended): on identical input — any content type (csv, json, text
with or without an LLM parser, or unsupported), any content, options,
user preferences and source, and any behavior of the deterministic json
and plain-text parse steps — the ingestion output is identical in
everything except the freshly drawn identifiers: status, canonical log up
to session ids, issue list, summary (confidence and all counts), parser
version and llm metadata do not depend on the uuid4 draws for user id,
log id or session ids.  The session ids themselves (and hence the
serialized canonical log and its content hash, the log id and a generated
user id) do change from draw to draw. -/
theorem determinism_amended :
    ∀ (content_type content : String) (user : UserInput) (options0 : Option IngestOptions)
      (source_app : Option String)
      (jsonParse : String → List (Option String × List (String × List RawSet)))
      (textParse : String → List (String × List RawSet) × List IssueRecord)
      (llm_available : Bool)
      (llmFn : String → Option String →
        Except String (List (Option String × List (String × List RawSet))))
      (pack : String → Option String) (reg : List RegEntry)
      (fu1 fl1 : String) (fs1 : ℕ → String) (fu2 fl2 : String) (fs2 : ℕ → String),
      (ingest_log_dispatch content_type content user options0 source_app jsonParse textParse
          llm_available llmFn pack reg fu1 fl1 fs1).map ingestUuidFreeView =
      (ingest_log_dispatch content_type content user options0 source_app jsonParse textParse
          llm_available llmFn pack reg fu2 fl2 fs2).map ingestUuidFreeView := by
  intro content_type content user options0 source_app jsonParse textParse
    llm_available llmFn pack reg fu1 fl1 fs1 fu2 fl2 fs2
  simp only [ingest_log_dispatch]
  by_cases h1 : content_type = "csv"
  · rw [if_pos h1, if_pos h1]
    cases hpc : parse_csv content with
    | error e => rfl
    | ok parsed =>
      simp only [bind_ok_eq]
      by_cases hemp : parsed.isEmpty = true
      · rw [if_pos hemp, if_pos hemp]
        exact ingest_after_parse_strip _ _ _ _ _ _ _ _ _ _ _ _ _ _ _
      · rw [if_neg hemp, if_neg hemp]
        exact ingest_after_parse_strip _ _ _ _ _ _ _ _ _ _ _ _ _ _ _
  · rw [if_neg h1, if_neg h1]
    by_cases h2 : content_type = "json"
    · rw [if_pos h2, if_pos h2]
      by_cases hemp : (jsonParse content).isEmpty = true
      · rw [if_pos hemp, if_pos hemp]
        exact ingest_after_parse_strip _ _ _ _ _ _ _ _ _ _ _ _ _ _ _
      · rw [if_neg hemp, if_neg hemp]
        exact ingest_after_parse_strip _ _ _ _ _ _ _ _ _ _ _ _ _ _ _
    · rw [if_neg h2, if_neg h2]
      by_cases h3 : content_type = "text"
      · rw [if_pos h3, if_pos h3]
        by_cases hal : ((options0.getD {}).allow_llm = true ∧ llm_available = true)
        · rw [if_pos hal, if_pos hal]
          cases hfn : llmFn content (options0.getD {}).session_date_hint with
          | ok rs => exact ingest_after_parse_strip _ _ _ _ _ _ _ _ _ _ _ _ _ _ _
          | error e => exact ingest_after_parse_strip _ _ _ _ _ _ _ _ _ _ _ _ _ _ _
        · rw [if_neg hal, if_neg hal]
          by_cases hal2 : ((options0.getD {}).allow_llm = true ∧ ¬ llm_available = true)
          · rw [if_pos hal2, if_pos hal2]
            by_cases hemp : (textParse content).1.isEmpty = true
            · rw [if_pos hemp, if_pos hemp]
              exact ingest_after_parse_strip _ _ _ _ _ _ _ _ _ _ _ _ _ _ _
            · rw [if_neg hemp, if_neg hemp]
              exact ingest_after_parse_strip _ _ _ _ _ _ _ _ _ _ _ _ _ _ _
          · rw [if_neg hal2, if_neg hal2]
            by_cases hemp : (textParse content).1.isEmpty = true
            · rw [if_pos hemp, if_pos hemp]
              exact ingest_after_parse_strip _ _ _ _ _ _ _ _ _ _ _ _ _ _ _
            · rw [if_neg hemp, if_neg hemp]
              exact ingest_after_parse_strip _ _ _ _ _ _ _ _ _ _ _ _ _ _ _
      · rw [if_neg h3, if_neg h3]
        exact ingest_after_parse_strip _ _ _ _ _ _ _ _ _ _ _ _ _ _ _

/-- Two runs of the CSV pipeline on the very same input, differing only in
the uuid4 draws, produce canonical logs with different session ids. -/
theorem determinism_claim_counterexample :
    (ingestCSV "exercise,weight,reps\nSquat,135,5" {} none none (fun _ => none) []
        "u" "l" (fun _ => "aaaaaaaa") false).map
      (fun o => o.canonical_log.sessions.map (fun s2 => s2.session_id)) =
      .ok ["sess_aaaaaaaa"] ∧
    (ingestCSV "exercise,weight,reps\nSquat,135,5" {} none none (fun _ => none) []
        "u" "l" (fun _ => "bbbbbbbb") false).map
      (fun o => o.canonical_log.sessions.map (fun s2 => s2.session_id)) =
      .ok ["sess_bbbbbbbb"] := by
  constructor
  · simp +decide [ingestCSV, parse_csv, splitLines, splitOnChar, csvRowDict, rawGet,
      colMapFind, parseCsvRow, parse_weight, groupContiguous, groupByDate, appendToBlocks,
      dictAssign, dictSetdefault, dictContains, dictLookup, List.find?, List.foldlM,
      pythonIntViaFloat, pythonFloat, parseSign, parseMantissa, parseExponent, takeDigitsU,
      digitsVal, isDigitChar, truncToInt, startsWithChar, strContains,
      ingest_after_parse, build_canonical_log, buildSessions, normalize_session,
      normExercises, normalize_exercise, normSets, normalize_set, mkSetRecord,
      resolve_exercise, packLookup, EXERCISE_ALIASES, normalize_unit, normalize_date,
      isIsoShaped, buildRegistryMaps, unmappedIssuesOf, strStartsWith, natStr,
      pyStrip, pyLower, dropLeadingWs, pyTruthy, pyOr, pyTake, pyInt,
      bind_ok_eq, bind_err_eq, except_pure_eq, except_map_ok, Except.map]
  · simp +decide [ingestCSV, parse_csv, splitLines, splitOnChar, csvRowDict, rawGet,
      colMapFind, parseCsvRow, parse_weight, groupContiguous, groupByDate, appendToBlocks,
      dictAssign, dictSetdefault, dictContains, dictLookup, List.find?, List.foldlM,
      pythonIntViaFloat, pythonFloat, parseSign, parseMantissa, parseExponent, takeDigitsU,
      digitsVal, isDigitChar, truncToInt, startsWithChar, strContains,
      ingest_after_parse, build_canonical_log, buildSessions, normalize_session,
      normExercises, normalize_exercise, normSets, normalize_set, mkSetRecord,
      resolve_exercise, packLookup, EXERCISE_ALIASES, normalize_unit, normalize_date,
      isIsoShaped, buildRegistryMaps, unmappedIssuesOf, strStartsWith, natStr,
      pyStrip, pyLower, dropLeadingWs, pyTruthy, pyOr, pyTake, pyInt,
      bind_ok_eq, bind_err_eq, except_pure_eq, except_map_ok, Except.map]

/-- An LLM-supplied intermediate session whose set has load_type weighted
with a null weight: the pydantic validator raises and the exception
propagates to the caller instead of becoming an issue. -/
theorem exception_policy_counterexample :
    ingestLLM "workout text" {} none none
      (fun _ _ => .ok [(some "2025-01-15",
        [("Bench", [{ load_type := some "weighted", weight := some none,
                      reps := some (some 5) }])])])
      (fun _ => none) [] "u" "l" (fun _ => "aaaaaaaa") =
      .error "weight required when load_type is weighted" := by
  simp +decide [ingestLLM, ingest_after_parse, build_canonical_log, buildSessions,
    normalize_session, normExercises, normalize_exercise, normSets, normalize_set,
    mkSetRecord, pyInt, truncToInt, resolve_exercise, packLookup, EXERCISE_ALIASES,
    dictLookup, normalize_unit, pyStrip, pyLower, dropLeadingWs, pyTruthy, pyOr,
    pyTake, natStr, round2, roundHalfEven, buildRegistryMaps, unmappedIssuesOf,
    strStartsWith, normalize_date, isIsoShaped,
    bind_ok_eq, bind_err_eq, except_pure_eq, except_map_ok, Except.map]

/-- C8 (amended): an exception raised by the external LLM parser is caught
and converted into a blocking llm_parse_error issue carrying its message —
the call returns normally with an empty canonical log, confidence 0 and
status needs_clarification.  (Data-quality problems inside LLM-supplied
intermediate sessions, by contrast, can re-raise out of the canonical
builder, as the counterexample shows.) -/
theorem exception_policy_amended :
    ∀ (content : String) (user : UserInput) (options0 : Option IngestOptions)
      (source_app : Option String)
      (llmFn : String → Option String →
        Except String (List (Option String × List (String × List RawSet))))
      (pack : String → Option String) (reg : List RegEntry)
      (fu fl : String) (fs : ℕ → String) (e : String),
      llmFn content (options0.getD {}).session_date_hint = .error e →
      (ingestLLM content user options0 source_app llmFn pack reg fu fl fs).map
          (fun o => (o.status, o.canonical_log, o.issues, o.summary.confidence)) =
        .ok ("needs_clarification", ⟨[]⟩,
          [{ severity := "blocking", type := "llm_parse_error", location := "text",
             message := e }], 0) := by
  intro content user options0 source_app llmFn pack reg fu fl fs e h
  simp only [ingestLLM]
  rw [h]
  simp +decide [ingest_after_parse, Except.map]

theorem exception_policy_witness :
    ((fun (_ : String) (_ : Option String) =>
        (.error "boom" : Except String (List (Option String × List (String × List RawSet)))))
        "x" ((none : Option IngestOptions).getD {}).session_date_hint = .error "boom") ∧
    (ingestLLM "x" {} none none (fun _ _ => .error "boom") (fun _ => none) [] "u" "l"
        (fun _ => "s")).map
        (fun o => (o.status, o.canonical_log, o.issues, o.summary.confidence)) =
      .ok ("needs_clarification", ⟨[]⟩,
        [{ severity := "blocking", type := "llm_parse_error", location := "text",
           message := "boom" }], 0) :=
  ⟨rfl, exception_policy_amended "x" {} none none (fun _ _ => .error "boom")
    (fun _ => none) [] "u" "l" (fun _ => "s") "boom" rfl⟩

set_option maxRecDepth 100000 in
/-- C5: the guardrail behavior the claim describes is one the program
cannot exhibit against its own models.  models.py declares
`ComputeMetricsOutput` with `status` restricted to ok/error and a
required `user_id` that metrics.py never passes, so every return of
`compute_metrics_impl` — the guardrail returns included — raises a
pydantic `ValidationError` instead of delivering an output: on every
payload the checked call errors; on a 501-session payload it raises with
both field errors, even though the computed kwargs carry exactly the
claimed `needs_clarification` status and blocking `payload_too_large`
issue. -/
theorem metrics_models_mismatch :
    (∀ (payload : MetricsPayload), ∃ e, compute_metrics_checked payload = .error e) ∧
    compute_metrics_checked
        { sessions := List.replicate 501 { date := some "2025-01-06" },
          range := some { start := "2025-01-01", end_ := "2025-01-31" } } =
      .error "ValidationError: status: input should be ok or error; user_id: field required" ∧
    (compute_metrics_impl
        { sessions := List.replicate 501 { date := some "2025-01-06" },
          range := some { start := "2025-01-01", end_ := "2025-01-31" } }).map
        (fun o => (o.status, o.issues.map (fun i => (i.severity, i.type)))) =
      .ok ("needs_clarification", [("blocking", "payload_too_large")]) := by
  have hbig := (metrics_guardrails
    { sessions := List.replicate 501 { date := some "2025-01-06" },
      range := some { start := "2025-01-01", end_ := "2025-01-31" } }).1 (by decide)
  refine ⟨?_, ?_, ?_⟩
  · intro payload
    cases h : compute_metrics_impl payload with
    | error e =>
      exact ⟨e, by simp [compute_metrics_checked, h, bind_err_eq]⟩
    | ok o =>
      by_cases hst : (o.status = "ok" ∨ o.status = "error")
      · refine ⟨"ValidationError: user_id: field required", ?_⟩
        simp only [compute_metrics_checked, h, bind_ok_eq, mkComputeMetricsOutputModel,
          computeMetricsOutputErrors, if_pos hst]
        rfl
      · refine ⟨"ValidationError: status: input should be ok or error; user_id: field required", ?_⟩
        simp only [compute_metrics_checked, h, bind_ok_eq, mkComputeMetricsOutputModel,
          computeMetricsOutputErrors, if_neg hst]
        rfl
  · simp only [compute_metrics_checked]
    rw [hbig]
    simp only [bind_ok_eq, mkComputeMetricsOutputModel, computeMetricsOutputErrors]
    rfl
  · rw [hbig]
    simp +decide [Except.map]
end Repstack
